import Mathlib

/-!
Shallow embedding of the RosewoodRivalry statistics backend
(`src/backend/app`): the data model (Player, Game, GameParticipation,
Team, golf entities), the aggregate recalculators, the season filter,
the team-discovery engine and the rivalry classifier, translated from
the Python source.  Scores are modelled as `Int`, Python floats arising
from the statistics divisions as `ℚ` (both sides of every compared
computation perform the identical divisions, so exact arithmetic is
faithful), and the `played_at` timestamp at the granularity the code
reads it (its calendar year, via `extract('year', ...)`).
-/

/-- `app.models.Player` (Die-game fields; golf fields are modelled on
`GolfPlayer` below since the two games never mix in one computation). -/
structure Player where
  id : Nat
  name : String
  games_played : Nat
  games_won : Nat
  total_points_scored : Int
  total_points_against : Int
  win_percentage : ℚ
  avg_win_margin : ℚ
  avg_loss_margin : ℚ
deriving DecidableEq, Repr

/-- `app.models.Game`: `played_year` is the calendar year of `played_at`,
the only component of the timestamp the statistics code reads. -/
structure Game where
  id : Nat
  team1_score : Int
  team2_score : Int
  winner_team : Nat
  location : Option String
  played_year : Nat
deriving DecidableEq, Repr

/-- `app.models.GameParticipation`. -/
structure GameParticipation where
  game_id : Nat
  player_id : Nat
  team_number : Nat
deriving DecidableEq, Repr

/-- `app.models.Team` (cached aggregate row discovered by the team service). -/
structure Team where
  id : Nat
  player1_id : Nat
  player2_id : Nat
  player3_id : Nat
  team_name : String
  games_played : Nat
  games_won : Nat
  total_points_scored : Int
  total_points_against : Int
  win_percentage : ℚ
  avg_win_margin : ℚ
  avg_loss_margin : ℚ
deriving DecidableEq, Repr

/-- The relational store as the routers see it. -/
structure DB where
  players : List Player
  games : List Game
  participations : List GameParticipation
  teams : List Team
deriving DecidableEq, Repr

/-- Primary-key lookup on a games table. -/
def gamesGet (games : List Game) (gid : Nat) : Option Game :=
  games.find? (fun g => g.id == gid)

/-- `db.get(Game, gid)`: primary-key lookup. -/
def dbGetGame (db : DB) (gid : Nat) : Option Game :=
  gamesGet db.games gid

/-- `db.get(Player, pid)`: primary-key lookup. -/
def dbGetPlayer (db : DB) (pid : Nat) : Option Player :=
  db.players.find? (fun p => p.id == pid)

/-! ## Rivalry classifier (`app/services/rivalry_service.py`) -/

/-- `rivalry_service.ORCHARD_PLAYERS`. -/
def ORCHARD_PLAYERS : List String :=
  ["Sean Nary", "Tyler Pendleton", "Reid Silverman"]

/-- `rivalry_service.DREHER_PLAYERS` (note: four names). -/
def DREHER_PLAYERS : List String :=
  ["Jeremy Cortazzo", "Danny Wersching", "AJ Partridge", "Brendan Meagher"]

/-- The `team1_players` name list built by the loop in `is_rivalry_game`
(participations of the game whose resolved player exists, side marker 1). -/
def game_team1_names (db : DB) (gid : Nat) : List String :=
  (db.participations.filter (fun p => p.game_id == gid)).filterMap
    (fun p => match dbGetPlayer db p.player_id with
      | none => none
      | some pl => if p.team_number == 1 then some pl.name else none)

/-- The `team2_players` name list: the loop's `else` branch collects every
participation whose side marker is not 1. -/
def game_team2_names (db : DB) (gid : Nat) : List String :=
  (db.participations.filter (fun p => p.game_id == gid)).filterMap
    (fun p => match dbGetPlayer db p.player_id with
      | none => none
      | some pl => if p.team_number == 1 then none else some pl.name)

/-- Python `set(a) == set(b)` on name lists. -/
def setEqB (a b : List String) : Bool :=
  a.all (fun x => b.contains x) && b.all (fun x => a.contains x)

/-- The record returned for a qualifying rivalry game. -/
structure RivalryInfo where
  orchard_team : Nat
  dreher_team : Nat
  orchard_players : List String
  dreher_players : List String
  orchard_score : Int
  dreher_score : Int
  winner : String
deriving DecidableEq, Repr

/-- `rivalry_service.is_rivalry_game`. -/
def is_rivalry_game (db : DB) (game : Game) : Option RivalryInfo :=
  let t1 := game_team1_names db game.id
  let t2 := game_team2_names db game.id
  let team1_is_orchard :=
    t1.all (fun x => ORCHARD_PLAYERS.contains x) && t1.length == 3
      && setEqB t1 ORCHARD_PLAYERS
  let team1_is_dreher :=
    t1.all (fun x => DREHER_PLAYERS.contains x) && t1.length == 3
  let team2_is_orchard :=
    t2.all (fun x => ORCHARD_PLAYERS.contains x) && t2.length == 3
      && setEqB t2 ORCHARD_PLAYERS
  let team2_is_dreher :=
    t2.all (fun x => DREHER_PLAYERS.contains x) && t2.length == 3
  if team1_is_orchard && team2_is_dreher then
    some { orchard_team := 1, dreher_team := 2, orchard_players := t1,
           dreher_players := t2, orchard_score := game.team1_score,
           dreher_score := game.team2_score,
           winner := if game.winner_team == 1 then "Orchard" else "Dreher" }
  else if team1_is_dreher && team2_is_orchard then
    some { orchard_team := 2, dreher_team := 1, orchard_players := t2,
           dreher_players := t1, orchard_score := game.team2_score,
           dreher_score := game.team1_score,
           winner := if game.winner_team == 2 then "Orchard" else "Dreher" }
  else none

/-- Spec-side predicate: a name list is an exact set-equality match to the
Orchard roster with exactly three entries. -/
def SideIsOrchard (l : List String) : Prop :=
  l.length = 3 ∧ ∀ x, x ∈ l ↔ x ∈ ORCHARD_PLAYERS

/-- Spec-side predicate matching what the code actually tests for the Dreher
side: exactly three entries, each drawn from the four-name Dreher roster. -/
def SideIsDreherSubset (l : List String) : Prop :=
  l.length = 3 ∧ ∀ x ∈ l, x ∈ DREHER_PLAYERS

/-- Spec-side predicate for the claim's reading of the Dreher side: exact
set-equality with the (four-name) Dreher roster. -/
def SideIsDreherExact (l : List String) : Prop :=
  ∀ x, x ∈ l ↔ x ∈ DREHER_PLAYERS

/-! ## Die-game recalculator and game mutations (`app/routers/games.py`) -/

/-- The accumulation loop of `_update_single_player_stats` (lines 28-47):
returns `(games_won, total_points_scored, total_points_against,
win_margins, loss_margins)`; a participation whose game does not resolve
is skipped (`continue`). -/
def statsLoop (games : List Game) : List GameParticipation → Nat × Int × Int × List Int × List Int
  | [] => (0, 0, 0, [], [])
  | p :: rest =>
    match gamesGet games p.game_id with
    | none => statsLoop games rest
    | some g =>
      let r := statsLoop games rest
      let player_score := if p.team_number == 1 then g.team1_score else g.team2_score
      let opponent_score := if p.team_number == 1 then g.team2_score else g.team1_score
      if g.winner_team == p.team_number then
        (r.1 + 1, player_score + r.2.1, opponent_score + r.2.2.1,
         (player_score - opponent_score) :: r.2.2.2.1, r.2.2.2.2)
      else
        (r.1, player_score + r.2.1, opponent_score + r.2.2.1,
         r.2.2.2.1, (opponent_score - player_score) :: r.2.2.2.2)

/-- Lines 16-56 of `games._update_single_player_stats`: the recomputed
row for `player` (the query filters by `player.id`); reads only the
games and participation tables. -/
def recomputedPlayer (games : List Game) (parts : List GameParticipation)
    (player : Player) : Player :=
  let ps := parts.filter (fun p => p.player_id == player.id)
  let r := statsLoop games ps
  let won := r.1
  let wm := r.2.2.2.1
  let lm := r.2.2.2.2
  { player with
    games_played := ps.length
    games_won := won
    total_points_scored := r.2.1
    total_points_against := r.2.2.1
    win_percentage := if ps.length > 0 then (won : ℚ) / (ps.length : ℚ) * 100 else 0
    avg_win_margin := if wm.length > 0 then ((wm.sum : ℚ) / (wm.length : ℚ)) else 0
    avg_loss_margin := if lm.length > 0 then ((lm.sum : ℚ) / (lm.length : ℚ)) else 0 }

/-- `games._update_single_player_stats`: full recompute of the cached
aggregate fields of one player; a missing player is a no-op. -/
def update_single_player_stats (db : DB) (player_id : Nat) : DB :=
  match dbGetPlayer db player_id with
  | none => db
  | some player =>
    let p' := recomputedPlayer db.games db.participations player
    { db with players := db.players.map (fun q => if q.id == player_id then p' else q) }

/-- `games._update_player_stats`: recompute every participant of a game. -/
def update_player_stats (db : DB) (game : Game) : DB :=
  (db.participations.filter (fun p => p.game_id == game.id)).foldl
    (fun d p => update_single_player_stats d p.player_id) db

/-- `schemas.GameCreate` (pydantic request body). -/
structure GameCreate where
  team1_score : Int
  team2_score : Int
  team1_players : List Nat
  team2_players : List Nat
  location : Option String
deriving DecidableEq, Repr

/-- `schemas.GameUpdate` (pydantic request body, all fields optional). -/
structure GameUpdate where
  team1_score : Option Int
  team2_score : Option Int
  team1_players : Option (List Nat)
  team2_players : Option (List Nat)
  location : Option String
deriving DecidableEq, Repr

/-- The autoincrement primary key the store assigns to a new game row. -/
def freshGameId (db : DB) : Nat :=
  (db.games.map (fun g => g.id)).foldl max 0 + 1

/-- `games.create_game`; `now_year` is the calendar year of the `est_now`
default the model stamps on `played_at`. -/
def create_game (db : DB) (now_year : Nat) (gc : GameCreate) : Except String DB :=
  let all_player_ids := gc.team1_players ++ gc.team2_players
  let players := db.players.filter (fun pl => all_player_ids.contains pl.id)
  if players.length ≠ 6 then .error "One or more players not found"
  else
    let winner_team := if gc.team1_score > gc.team2_score then 1 else 2
    let db_game : Game :=
      { id := freshGameId db, team1_score := gc.team1_score,
        team2_score := gc.team2_score, winner_team := winner_team,
        location := none, played_year := now_year }
    let parts1 := gc.team1_players.map (fun pid => GameParticipation.mk db_game.id pid 1)
    let parts2 := gc.team2_players.map (fun pid => GameParticipation.mk db_game.id pid 2)
    let db2 : DB := { db with games := db.games ++ [db_game],
                              participations := db.participations ++ parts1 ++ parts2 }
    .ok (update_player_stats db2 db_game)

/-- `games.update_game`. -/
def update_game (db : DB) (game_id : Nat) (gu : GameUpdate) : Except String DB :=
  match dbGetGame db game_id with
  | none => .error "Game not found"
  | some game0 =>
    let t1 := gu.team1_score.getD game0.team1_score
    let t2 := gu.team2_score.getD game0.team2_score
    let winner := if t1 > t2 then 1 else 2
    let game1 : Game := { game0 with team1_score := t1, team2_score := t2,
                                     winner_team := winner }
    if gu.team1_players.isSome || gu.team2_players.isSome then
      let existing := db.participations.filter (fun p => p.game_id == game_id)
      let all_player_ids := gu.team1_players.getD [] ++ gu.team2_players.getD []
      -- `all_affected_player_ids` is a Python set; modelled as a deduplicated
      -- list (the per-player stat updates below are order-independent).
      let affected := (existing.map (fun p => p.player_id) ++ all_player_ids).dedup
      let found := db.players.filter (fun pl => all_player_ids.contains pl.id)
      if all_player_ids.length ≠ 0 && found.length ≠ all_player_ids.length then
        .error "One or more players not found"
      else
        let parts1 := (gu.team1_players.getD []).map (fun pid => GameParticipation.mk game_id pid 1)
        let parts2 := (gu.team2_players.getD []).map (fun pid => GameParticipation.mk game_id pid 2)
        let db1 : DB :=
          { db with games := db.games.map (fun g => if g.id == game_id then game1 else g),
                    participations :=
                      db.participations.filter (fun p => p.game_id != game_id)
                        ++ parts1 ++ parts2 }
        .ok (affected.foldl (fun d pid => update_single_player_stats d pid) db1)
    else
      let db1 : DB :=
        { db with games := db.games.map (fun g => if g.id == game_id then game1 else g) }
      .ok (update_player_stats db1 game1)

/-- `games.delete_game`. -/
def delete_game (db : DB) (game_id : Nat) : Except String DB :=
  match dbGetGame db game_id with
  | none => .error "Game not found"
  | some _ =>
    let affected := (db.participations.filter (fun p => p.game_id == game_id)).map
      (fun p => p.player_id)
    let db1 : DB :=
      { db with participations := db.participations.filter (fun p => p.game_id != game_id),
                games := db.games.filter (fun g => g.id != game_id) }
    .ok (affected.foldl (fun d pid => update_single_player_stats d pid) db1)

/-! ## Season-scoped player statistics (`app/routers/players.py`) -/

/-- The seven-value statistics dict returned by
`players._compute_player_season_stats`. -/
structure PlayerStatsVals where
  games_played : Nat
  games_won : Nat
  win_percentage : ℚ
  avg_win_margin : ℚ
  avg_loss_margin : ℚ
  total_points_scored : Int
  total_points_against : Int
deriving DecidableEq, Repr

/-- The all-zero dict returned when the player has no participations. -/
def zeroStats : PlayerStatsVals := ⟨0, 0, 0, 0, 0, 0, 0⟩

/-- Python truthiness test `season and season != 'all'`. -/
def seasonActive : Option String → Bool
  | none => false
  | some s => !(s == "") && !(s == "all")

/-- Lookup in the `{g.id: g for g in games_query}` dict: a later duplicate
id overwrites an earlier one, hence the reverse-first-match. -/
def dictGetGame (games : List Game) (gid : Nat) : Option Game :=
  games.reverse.find? (fun g => g.id == gid)

/-- Decimal digit value of a character, `none` for non-digits. -/
def digitVal (c : Char) : Option Nat :=
  let n := c.toNat
  if 48 ≤ n ∧ n ≤ 57 then some (n - 48) else none

/-- Accumulator loop of the decimal parser. -/
def strToNatAux : List Char → Nat → Option Nat
  | [], acc => some acc
  | c :: cs, acc =>
    match digitVal c with
    | none => none
    | some d => strToNatAux cs (acc * 10 + d)

/-- Python `int(...)` on a plain decimal string (the season parameter):
`none` models the non-numeric failure case. -/
def strToNat (s : String) : Option Nat :=
  match s.data with
  | [] => none
  | cs => strToNatAux cs 0

/-- `extract('year', Game.played_at) == int(season)` on the year-granular
timestamp model (non-numeric season strings match no game). -/
def inSeasonYear (g : Game) (s : String) : Bool :=
  some g.played_year == strToNat s

/-- The accumulation loop of `_compute_player_season_stats` (lines 38-52):
`(games_played, games_won, total_scored, total_against, win_margins,
loss_margins)` over the dict of season-filtered games. -/
def seasonStatsLoop (games : List Game) :
    List GameParticipation → Nat × Nat × Int × Int × List Int × List Int
  | [] => (0, 0, 0, 0, [], [])
  | p :: rest =>
    match dictGetGame games p.game_id with
    | none => seasonStatsLoop games rest
    | some g =>
      let r := seasonStatsLoop games rest
      let p_score := if p.team_number == 1 then g.team1_score else g.team2_score
      let o_score := if p.team_number == 1 then g.team2_score else g.team1_score
      if g.winner_team == p.team_number then
        (r.1 + 1, r.2.1 + 1, p_score + r.2.2.1, o_score + r.2.2.2.1,
         (p_score - o_score) :: r.2.2.2.2.1, r.2.2.2.2.2)
      else
        (r.1 + 1, r.2.1, p_score + r.2.2.1, o_score + r.2.2.2.1,
         r.2.2.2.2.1, (o_score - p_score) :: r.2.2.2.2.2)

/-- `players._compute_player_season_stats`. -/
def compute_player_season_stats (db : DB) (player : Player) (season : Option String) :
    PlayerStatsVals :=
  let participations := db.participations.filter (fun p => p.player_id == player.id)
  let game_ids := participations.map (fun p => p.game_id)
  if game_ids.isEmpty then zeroStats
  else
    let base := db.games.filter (fun g => game_ids.contains g.id)
    let gamesList :=
      match season with
      | some s => if !(s == "") && !(s == "all") then base.filter (fun g => inSeasonYear g s) else base
      | none => base
    let r := seasonStatsLoop gamesList participations
    let gp := r.1
    let gw := r.2.1
    let wm := r.2.2.2.2.1
    let lm := r.2.2.2.2.2
    { games_played := gp, games_won := gw,
      win_percentage := if gp > 0 then (gw : ℚ) / (gp : ℚ) * 100 else 0,
      avg_win_margin := if wm.length > 0 then ((wm.sum : ℚ) / (wm.length : ℚ)) else 0,
      avg_loss_margin := if lm.length > 0 then ((lm.sum : ℚ) / (lm.length : ℚ)) else 0,
      total_points_scored := r.2.2.1, total_points_against := r.2.2.2.1 }

/-- The view of a player's cached aggregate fields compared against the
on-the-fly recompute. -/
def cachedStats (p : Player) : PlayerStatsVals :=
  ⟨p.games_played, p.games_won, p.win_percentage, p.avg_win_margin,
   p.avg_loss_margin, p.total_points_scored, p.total_points_against⟩

/-- One row of the leaderboard response (`schemas.PlayerStats`; the
`recent_games` list is display-only and not part of the statistics model). -/
structure PlayerStatsEntry where
  id : Nat
  name : String
  games_played : Nat
  games_won : Nat
  win_percentage : ℚ
  avg_win_margin : ℚ
  avg_loss_margin : ℚ
  total_points_scored : Int
  total_points_against : Int
deriving DecidableEq, Repr

/-- Build a leaderboard row from a player and a statistics dict. -/
def mkEntry (p : Player) (s : PlayerStatsVals) : PlayerStatsEntry :=
  ⟨p.id, p.name, s.games_played, s.games_won, s.win_percentage,
   s.avg_win_margin, s.avg_loss_margin, s.total_points_scored, s.total_points_against⟩

/-- `results.sort(key=lambda p: (-p.win_percentage, -p.games_played))`:
the ascending-key comparison of that sort. -/
def leaderboardLE (a b : PlayerStatsEntry) : Bool :=
  decide (b.win_percentage < a.win_percentage)
    || (decide (a.win_percentage = b.win_percentage) && decide (b.games_played ≤ a.games_played))

/-- Insertion step of the leaderboard sort. -/
def insertEntry (e : PlayerStatsEntry) : List PlayerStatsEntry → List PlayerStatsEntry
  | [] => [e]
  | x :: xs => if leaderboardLE e x then e :: x :: xs else x :: insertEntry e xs

/-- The leaderboard sort (order-equivalent to Python's stable sort on the
descending key pair). -/
def sortEntries (l : List PlayerStatsEntry) : List PlayerStatsEntry :=
  l.foldr insertEntry []

/-- `players.get_leaderboard`: season path recomputes on the fly and skips
players with no games in the season; otherwise cached values are served. -/
def get_leaderboard (db : DB) (season : Option String) : List PlayerStatsEntry :=
  let results := db.players.filterMap (fun player =>
    let stats :=
      if seasonActive season then compute_player_season_stats db player season
      else cachedStats player
    if stats.games_played == 0 && seasonActive season then none
    else some (mkEntry player stats))
  sortEntries results

/-! ## Team discovery (`app/services/team_service.py`) -/

/-- Insertion step for sorting player names (`sorted(players, key=...name)`). -/
def insertByName (p : Player) : List Player → List Player
  | [] => [p]
  | q :: qs => if p.name ≤ q.name then p :: q :: qs else q :: insertByName p qs

/-- `sorted(players, key=lambda p: p.name)`. -/
def sortByName (l : List Player) : List Player :=
  l.foldr insertByName []

/-- Python `name.strip().split()`: whitespace tokens, empties dropped
(names here are space-separated). -/
def nameTokens (name : String) : List String :=
  (name.split (fun c => c = ' ')).filter (fun t => t ≠ "")

/-- `team_service.get_team_name`: join the last token of each sorted name. -/
def get_team_name (players : List Player) : String :=
  String.intercalate "/"
    ((sortByName players).map (fun p =>
      match (nameTokens p.name).getLast? with
      | some last => last
      | none => p.name))

/-- `tuple(sorted([a, b, c]))` for the three player ids of a full side. -/
def sort3 (a b c : Nat) : Nat × Nat × Nat :=
  if a ≤ b then
    if b ≤ c then (a, b, c)
    else if a ≤ c then (a, c, b)
    else (c, a, b)
  else
    if a ≤ c then (b, a, c)
    else if b ≤ c then (b, c, a)
    else (c, b, a)

/-- The canonical team key of one side of a game: `some key` exactly when
that side has exactly 3 participation rows. -/
def sideTriple (parts : List GameParticipation) (gid : Nat) (tn : Nat) :
    Option (Nat × Nat × Nat) :=
  match parts.filter (fun p => p.game_id == gid && p.team_number == tn) with
  | [p1, p2, p3] => some (sort3 p1.player_id p2.player_id p3.player_id)
  | _ => none

/-- `team_games[player_ids].append(game.id)` on the insertion-ordered
association list modelling the `defaultdict(list)`. -/
def addKey (k : Nat × Nat × Nat) (gid : Nat) :
    List ((Nat × Nat × Nat) × List Nat) → List ((Nat × Nat × Nat) × List Nat)
  | [] => [(k, [gid])]
  | (k', l) :: rest =>
    if k' = k then (k', l ++ [gid]) :: rest else (k', l) :: addKey k gid rest

/-- Add a game id under an optional side key (no-op when the side does
not have exactly 3 participants). -/
def optAddKey (o : Option (Nat × Nat × Nat)) (gid : Nat)
    (acc : List ((Nat × Nat × Nat) × List Nat)) :
    List ((Nat × Nat × Nat) × List Nat) :=
  match o with
  | some k => addKey k gid acc
  | none => acc

/-- One game's contribution to the team-games map: side 1 then side 2. -/
def analyzeStep (parts : List GameParticipation)
    (acc : List ((Nat × Nat × Nat) × List Nat)) (g : Game) :
    List ((Nat × Nat × Nat) × List Nat) :=
  optAddKey (sideTriple parts g.id 2) g.id
    (optAddKey (sideTriple parts g.id 1) g.id acc)

/-- `team_service.analyze_teams_from_games`: map each canonical key to the
game ids in which it occurs as a full side (side 1 processed before side 2). -/
def analyze_teams_from_games (db : DB) : List ((Nat × Nat × Nat) × List Nat) :=
  db.games.foldl (analyzeStep db.participations) []

/-- The autoincrement primary key assigned to a new team row. -/
def freshTeamId (db : DB) : Nat :=
  (db.teams.map (fun t => t.id)).foldl max 0 + 1

/-- In-place update of the first team row with the given player triple
(the ORM mutates the fetched row). -/
def replaceFirstTeam (key : Nat × Nat × Nat) (t' : Team) : List Team → List Team
  | [] => []
  | t :: rest =>
    if t.player1_id = key.1 ∧ t.player2_id = key.2.1 ∧ t.player3_id = key.2.2 then
      t' :: rest
    else t :: replaceFirstTeam key t' rest

/-- The statistics loop of `create_or_update_team` (lines 90-123):
`(games_won, total_points_scored, total_points_against, win_margins,
loss_margins)`; a game id that does not resolve, or whose matching
participation count is not 3, is skipped. -/
def teamGamesLoop (db : DB) (key : Nat × Nat × Nat) :
    List Nat → Nat × Int × Int × List Int × List Int
  | [] => (0, 0, 0, [], [])
  | gid :: rest =>
    let r := teamGamesLoop db key rest
    match dbGetGame db gid with
    | none => r
    | some game =>
      let team_participations := db.participations.filter (fun p =>
        p.game_id == gid && (p.player_id == key.1 || p.player_id == key.2.1
          || p.player_id == key.2.2))
      match team_participations.head? with
      | none => r
      | some p0 =>
        if team_participations.length ≠ 3 then r
        else
          let team_number := p0.team_number
          let team_score := if team_number == 1 then game.team1_score else game.team2_score
          let opponent_score := if team_number == 1 then game.team2_score else game.team1_score
          if game.winner_team == team_number then
            (r.1 + 1, team_score + r.2.1, opponent_score + r.2.2.1,
             (team_score - opponent_score) :: r.2.2.2.1, r.2.2.2.2)
          else
            (r.1, team_score + r.2.1, opponent_score + r.2.2.1,
             r.2.2.2.1, (opponent_score - team_score) :: r.2.2.2.2)

/-- `team_service.create_or_update_team`: `none` (db untouched) for fewer
than 3 game ids, otherwise the created/updated row; Python raises if one
of the three players is missing, modelled by the `Except` error. -/
def create_or_update_team (db : DB) (player_ids : Nat × Nat × Nat) (game_ids : List Nat) :
    Except String (Option Team × DB) :=
  if game_ids.length < 3 then .ok (none, db)
  else
    let existing_team := db.teams.find? (fun t =>
      t.player1_id == player_ids.1 && t.player2_id == player_ids.2.1
        && t.player3_id == player_ids.2.2)
    match dbGetPlayer db player_ids.1, dbGetPlayer db player_ids.2.1,
          dbGetPlayer db player_ids.2.2 with
    | some pl1, some pl2, some pl3 =>
      let team_name := get_team_name [pl1, pl2, pl3]
      let base : Team :=
        match existing_team with
        | some t => t
        | none =>
          { id := freshTeamId db, player1_id := player_ids.1,
            player2_id := player_ids.2.1, player3_id := player_ids.2.2,
            team_name := team_name, games_played := 0, games_won := 0,
            total_points_scored := 0, total_points_against := 0,
            win_percentage := 0, avg_win_margin := 0, avg_loss_margin := 0 }
      let r := teamGamesLoop db player_ids game_ids
      let won := r.1
      let wm := r.2.2.2.1
      let lm := r.2.2.2.2
      let team : Team :=
        { base with
          games_played := game_ids.length
          games_won := won
          total_points_scored := r.2.1
          total_points_against := r.2.2.1
          win_percentage :=
            if game_ids.length > 0 then (won : ℚ) / (game_ids.length : ℚ) * 100 else 0
          avg_win_margin := if wm.length > 0 then ((wm.sum : ℚ) / (wm.length : ℚ)) else 0
          avg_loss_margin := if lm.length > 0 then ((lm.sum : ℚ) / (lm.length : ℚ)) else 0
          team_name := team_name }
      let teams' :=
        match existing_team with
        | some _ => replaceFirstTeam player_ids team db.teams
        | none => db.teams ++ [team]
      .ok (some team, { db with teams := teams' })
    | _, _, _ => .error "player not found"

/-- One step of the rebuild loop: create/update the entry's team and
collect it when the threshold is met. -/
def rebuildStep (acc : List Team × DB) (entry : (Nat × Nat × Nat) × List Nat) :
    Except String (List Team × DB) := do
  let r ← create_or_update_team acc.2 entry.1 entry.2
  match r.1 with
  | some t => pure (acc.1 ++ [t], r.2)
  | none => pure (acc.1, r.2)

/-- `team_service.rebuild_all_teams`: clear the Team table, analyze all
games, then create each qualifying team; returns the created rows. -/
def rebuild_all_teams (db : DB) : Except String (List Team × DB) :=
  let db0 : DB := { db with teams := [] }
  (analyze_teams_from_games db0).foldlM rebuildStep (([] : List Team), db0)

/-! ## Season-scoped team statistics (`app/routers/teams.py`) -/

/-- Insertion step for the descending `played_at` ordering (modelled at
year granularity). -/
def insertByYearDesc (g : Game) : List Game → List Game
  | [] => [g]
  | h :: hs => if g.played_year ≥ h.played_year then g :: h :: hs else h :: insertByYearDesc g hs

/-- `order_by(Game.played_at.desc())` on the year-granular model. -/
def sortByYearDesc (l : List Game) : List Game :=
  l.foldr insertByYearDesc []

/-- `teams._get_team_games`: games in which all 3 team players appear on
one common side, with that side marker, optionally season-filtered. -/
def get_team_games (db : DB) (team : Team) (season : Option String) :
    List (Game × Nat) :=
  let pids := [team.player1_id, team.player2_id, team.player3_id]
  let base := db.games.filter (fun g =>
    db.participations.any (fun p => p.game_id == g.id && pids.contains p.player_id))
  let filtered :=
    match season with
    | some s => if !(s == "") && !(s == "all") then base.filter (fun g => inSeasonYear g s) else base
    | none => base
  (sortByYearDesc filtered).filterMap (fun g =>
    let parts := db.participations.filter (fun p =>
      p.game_id == g.id && pids.contains p.player_id)
    match parts.head? with
    | none => none
    | some p0 =>
      if parts.length == 3 && (parts.map (fun p => p.team_number)).dedup.length == 1 then
        some (g, p0.team_number)
      else none)

/-- The accumulation loop of `_compute_team_season_stats` (lines 54-64). -/
def teamStatsLoop : List (Game × Nat) → Nat × Nat × Int × Int × List Int × List Int
  | [] => (0, 0, 0, 0, [], [])
  | (game, team_number) :: rest =>
    let r := teamStatsLoop rest
    let t_score := if team_number == 1 then game.team1_score else game.team2_score
    let o_score := if team_number == 1 then game.team2_score else game.team1_score
    if game.winner_team == team_number then
      (r.1 + 1, r.2.1 + 1, t_score + r.2.2.1, o_score + r.2.2.2.1,
       (t_score - o_score) :: r.2.2.2.2.1, r.2.2.2.2.2)
    else
      (r.1 + 1, r.2.1, t_score + r.2.2.1, o_score + r.2.2.2.1,
       r.2.2.2.2.1, (o_score - t_score) :: r.2.2.2.2.2)

/-- `teams._compute_team_season_stats`. -/
def compute_team_season_stats (db : DB) (team : Team) (season : Option String) :
    PlayerStatsVals :=
  let r := teamStatsLoop (get_team_games db team season)
  let gp := r.1
  let gw := r.2.1
  let wm := r.2.2.2.2.1
  let lm := r.2.2.2.2.2
  { games_played := gp, games_won := gw,
    win_percentage := if gp > 0 then (gw : ℚ) / (gp : ℚ) * 100 else 0,
    avg_win_margin := if wm.length > 0 then ((wm.sum : ℚ) / (wm.length : ℚ)) else 0,
    avg_loss_margin := if lm.length > 0 then ((lm.sum : ℚ) / (lm.length : ℚ)) else 0,
    total_points_scored := r.2.2.1, total_points_against := r.2.2.2.1 }

/-- One row of the season-scoped team listing (`schemas.TeamOut`, the
statistics fields the claims speak about). -/
structure TeamOutEntry where
  id : Nat
  player1_id : Nat
  player2_id : Nat
  player3_id : Nat
  team_name : String
  games_played : Nat
  games_won : Nat
  total_points_scored : Int
  total_points_against : Int
  win_percentage : ℚ
  avg_win_margin : ℚ
  avg_loss_margin : ℚ
deriving DecidableEq, Repr

/-- Ascending-key comparison of the season team sort
(`key=lambda t: (-t.win_percentage, -t.games_played)`). -/
def teamSortLE (a b : TeamOutEntry) : Bool :=
  decide (b.win_percentage < a.win_percentage)
    || (decide (a.win_percentage = b.win_percentage) && decide (b.games_played ≤ a.games_played))

/-- Insertion step of the season team sort. -/
def insertTeamEntry (e : TeamOutEntry) : List TeamOutEntry → List TeamOutEntry
  | [] => [e]
  | x :: xs => if teamSortLE e x then e :: x :: xs else x :: insertTeamEntry e xs

/-- The season team sort. -/
def sortTeamEntries (l : List TeamOutEntry) : List TeamOutEntry :=
  l.foldr insertTeamEntry []

/-- The season-filtered branch of `teams.list_teams` (lines 86-120): one
entry per team with at least one qualifying game in the season, with the
dynamically computed statistics. -/
def list_teams_season (db : DB) (season : Option String) : List TeamOutEntry :=
  sortTeamEntries (db.teams.filterMap (fun team =>
    let stats := compute_team_season_stats db team season
    if stats.games_played == 0 then none
    else some
      { id := team.id, player1_id := team.player1_id, player2_id := team.player2_id,
        player3_id := team.player3_id, team_name := team.team_name,
        games_played := stats.games_played, games_won := stats.games_won,
        total_points_scored := stats.total_points_scored,
        total_points_against := stats.total_points_against,
        win_percentage := stats.win_percentage,
        avg_win_margin := stats.avg_win_margin,
        avg_loss_margin := stats.avg_loss_margin }))

/-! ## Golf (`app/routers/golf.py`) -/

/-- `schemas.GolfHoleInput`: one hole result (`winner_team` is 1, 2 or
null for halved). -/
structure GolfHoleInput where
  hole_number : Nat
  winner_team : Option Nat
deriving DecidableEq, Repr

/-- `app.models.GolfRound` (result fields). -/
structure GolfRound where
  id : Nat
  team1_holes_won : Nat
  team2_holes_won : Nat
  halved_holes : Nat
  winner_team : Option Nat
deriving DecidableEq, Repr

/-- `app.models.GolfRoundParticipation`. -/
structure GolfParticipation where
  round_id : Nat
  player_id : Nat
  team_number : Nat
deriving DecidableEq, Repr

/-- The golf aggregate fields cached on `app.models.Player`. -/
structure GolfPlayer where
  id : Nat
  name : String
  golf_rounds_played : Nat
  golf_rounds_won : Nat
  golf_rounds_lost : Nat
  golf_rounds_drawn : Nat
  golf_holes_won : Nat
  golf_holes_lost : Nat
  golf_win_percentage : ℚ
deriving DecidableEq, Repr

/-- The golf tables of the store. -/
structure GolfDB where
  players : List GolfPlayer
  rounds : List GolfRound
  participations : List GolfParticipation
deriving DecidableEq, Repr

/-- `db.get(GolfRound, rid)`. -/
def gdbGetRound (gdb : GolfDB) (rid : Nat) : Option GolfRound :=
  gdb.rounds.find? (fun r => r.id == rid)

/-- `db.get(Player, pid)` on the golf view. -/
def gdbGetPlayer (gdb : GolfDB) (pid : Nat) : Option GolfPlayer :=
  gdb.players.find? (fun p => p.id == pid)

/-- `golf._calculate_round_results`: `(team1_won, team2_won, halved,
winner)` derived from the hole results. -/
def calculate_round_results (holes : List GolfHoleInput) :
    Nat × Nat × Nat × Option Nat :=
  let team1_won := (holes.filter (fun h => h.winner_team == some 1)).length
  let team2_won := (holes.filter (fun h => h.winner_team == some 2)).length
  let halved := (holes.filter (fun h => h.winner_team == none)).length
  let winner :=
    if team1_won > team2_won then some 1
    else if team2_won > team1_won then some 2
    else none
  (team1_won, team2_won, halved, winner)

/-- The `GolfRound` row `create_golf_round` stores for a hole list (lines
199 and 217-225: the four result fields come straight from
`_calculate_round_results`). -/
def mkGolfRound (rid : Nat) (holes : List GolfHoleInput) : GolfRound :=
  let r := calculate_round_results holes
  { id := rid, team1_holes_won := r.1, team2_holes_won := r.2.1,
    halved_holes := r.2.2.1, winner_team := r.2.2.2 }

/-- The accumulation loop of `_update_single_player_golf_stats` (lines
108-127): `(rounds_won, rounds_lost, rounds_drawn, holes_won,
holes_lost)`; a participation whose round does not resolve is skipped. -/
def golfStatsLoop (gdb : GolfDB) : List GolfParticipation → Nat × Nat × Nat × Nat × Nat
  | [] => (0, 0, 0, 0, 0)
  | p :: rest =>
    match gdbGetRound gdb p.round_id with
    | none => golfStatsLoop gdb rest
    | some golf_round =>
      let r := golfStatsLoop gdb rest
      let hw := if p.team_number == 1 then golf_round.team1_holes_won
                else golf_round.team2_holes_won
      let hl := if p.team_number == 1 then golf_round.team2_holes_won
                else golf_round.team1_holes_won
      match golf_round.winner_team with
      | none => (r.1, r.2.1, r.2.2.1 + 1, hw + r.2.2.2.1, hl + r.2.2.2.2)
      | some w =>
        if w == p.team_number then
          (r.1 + 1, r.2.1, r.2.2.1, hw + r.2.2.2.1, hl + r.2.2.2.2)
        else
          (r.1, r.2.1 + 1, r.2.2.1, hw + r.2.2.2.1, hl + r.2.2.2.2)

/-- `golf._update_single_player_golf_stats`: full recompute of the cached
golf aggregates of one player. -/
def update_single_player_golf_stats (gdb : GolfDB) (player_id : Nat) : GolfDB :=
  match gdbGetPlayer gdb player_id with
  | none => gdb
  | some player =>
    let ps := gdb.participations.filter (fun p => p.player_id == player_id)
    let r := golfStatsLoop gdb ps
    let p' : GolfPlayer :=
      { player with
        golf_rounds_played := ps.length
        golf_rounds_won := r.1
        golf_rounds_lost := r.2.1
        golf_rounds_drawn := r.2.2.1
        golf_holes_won := r.2.2.2.1
        golf_holes_lost := r.2.2.2.2
        golf_win_percentage :=
          if ps.length > 0 then (r.1 : ℚ) / (ps.length : ℚ) * 100 else 0 }
    { gdb with players := gdb.players.map (fun q => if q.id == player_id then p' else q) }

/-! ## Specification-side definitions (the spec's vocabulary, to compare
with the embedded code) -/

/-- A participant's own score in a game (spec: own-score of the tuple). -/
def ownScore (p : GameParticipation) (g : Game) : Int :=
  if p.team_number == 1 then g.team1_score else g.team2_score

/-- A participant's opponent score in a game. -/
def oppScore (p : GameParticipation) (g : Game) : Int :=
  if p.team_number == 1 then g.team2_score else g.team1_score

/-- Spec: the participant's side equals the game's winner side. -/
def isWinB (p : GameParticipation) (g : Game) : Bool :=
  g.winner_team == p.team_number

/-- Resolve each participation against a lookup into the games table. -/
def resolvedWith (lookup : Nat → Option Game) (ps : List GameParticipation) :
    List (GameParticipation × Game) :=
  ps.filterMap (fun p => (lookup p.game_id).map (fun g => (p, g)))

/-- Spec: number of resolved participations that are wins. -/
def wonCountW (lookup : Nat → Option Game) (ps : List GameParticipation) : Nat :=
  ((resolvedWith lookup ps).filter (fun pg => isWinB pg.1 pg.2)).length

/-- Spec: the (own − opponent) margins over won games, in history order. -/
def wonMarginsW (lookup : Nat → Option Game) (ps : List GameParticipation) : List Int :=
  (resolvedWith lookup ps).filterMap (fun pg =>
    if isWinB pg.1 pg.2 then some (ownScore pg.1 pg.2 - oppScore pg.1 pg.2) else none)

/-- Spec: the (opponent − own) margins over lost games, in history order. -/
def lossMarginsW (lookup : Nat → Option Game) (ps : List GameParticipation) : List Int :=
  (resolvedWith lookup ps).filterMap (fun pg =>
    if isWinB pg.1 pg.2 then none else some (oppScore pg.1 pg.2 - ownScore pg.1 pg.2))

/-- Spec: sum of own scores over resolved participations. -/
def ownSumW (lookup : Nat → Option Game) (ps : List GameParticipation) : Int :=
  ((resolvedWith lookup ps).map (fun pg => ownScore pg.1 pg.2)).sum

/-- Spec: sum of opponent scores over resolved participations. -/
def oppSumW (lookup : Nat → Option Game) (ps : List GameParticipation) : Int :=
  ((resolvedWith lookup ps).map (fun pg => oppScore pg.1 pg.2)).sum

/-- Spec: mean of a list of integer margins, `0` when empty. -/
def listMean (l : List Int) : ℚ :=
  if l.length > 0 then (l.sum : ℚ) / (l.length : ℚ) else 0

/-- The participation rows of one player, in table order. -/
def playerParts (db : DB) (pid : Nat) : List GameParticipation :=
  db.participations.filter (fun p => p.player_id == pid)

/-! ## Generic list lemmas -/

theorem find?_reverse_of_uniq {α : Type} (l : List α) (p : α → Bool)
    (h : ∀ a ∈ l, ∀ b ∈ l, p a = true → p b = true → a = b) :
    l.reverse.find? p = l.find? p := by
  induction l with
  | nil => simp
  | cons x xs ih =>
    have hxs : ∀ a ∈ xs, ∀ b ∈ xs, p a = true → p b = true → a = b := by
      intro a ha b hb hpa hpb
      exact h a (List.mem_cons_of_mem _ ha) b (List.mem_cons_of_mem _ hb) hpa hpb
    by_cases hx : p x = true
    · cases hfind : xs.find? p with
      | none =>
        have hrev : xs.reverse.find? p = none := by
          rw [ih hxs]; exact hfind
        simp [List.reverse_cons, List.find?_append, hrev, hx]
      | some y =>
        have hy : y = x := by
          have hmem := List.mem_of_find?_eq_some hfind
          have hpy := List.find?_some hfind
          exact h y (List.mem_cons_of_mem _ hmem) x (List.mem_cons_self x xs) hpy hx
        have hrev : xs.reverse.find? p = some y := by rw [ih hxs]; exact hfind
        simp [List.reverse_cons, List.find?_append, hrev, hx, hy]
    · have hx' : p x = false := by simpa using hx
      have hrev := ih hxs
      simp [List.reverse_cons, List.find?_append, hrev, hx']

theorem find?_filter_of_imp {α : Type} (l : List α) (p q : α → Bool)
    (h : ∀ a, p a = true → q a = true) :
    (l.filter q).find? p = l.find? p := by
  induction l with
  | nil => simp
  | cons x xs ih =>
    by_cases hq : q x = true
    · by_cases hp : p x = true
      · simp [List.filter_cons, hq, hp]
      · simp [List.filter_cons, hq, hp, ih]
    · have hp : ¬ p x = true := fun hpx => hq (h x hpx)
      simp [List.filter_cons, hq, hp, ih]

theorem length_filterMap_map_isSome {α β γ : Type} (l : List α)
    (f : α → Option β) (g : α → β → γ) :
    (l.filterMap (fun a => (f a).map (g a))).length
      = l.countP (fun a => (f a).isSome) := by
  induction l with
  | nil => simp
  | cons x xs ih =>
    cases hf : f x with
    | none => simp [List.filterMap_cons, hf, List.countP_cons, ih]
    | some b => simp [List.filterMap_cons, hf, List.countP_cons, ih]

/-! ## Loop characterizations -/

theorem statsLoop_spec (games : List Game) (ps : List GameParticipation) :
    statsLoop games ps =
      (wonCountW (gamesGet games) ps, ownSumW (gamesGet games) ps,
       oppSumW (gamesGet games) ps, wonMarginsW (gamesGet games) ps,
       lossMarginsW (gamesGet games) ps) := by
  induction ps with
  | nil =>
    simp [statsLoop, wonCountW, ownSumW, oppSumW, wonMarginsW, lossMarginsW,
      resolvedWith]
  | cons p rest ih =>
    cases hg : gamesGet games p.game_id with
    | none =>
      simp [statsLoop, hg, ih, wonCountW, ownSumW, oppSumW, wonMarginsW,
        lossMarginsW, resolvedWith, List.filterMap_cons]
    | some g =>
      by_cases hw : g.winner_team = p.team_number
      · simp [statsLoop, hg, ih, hw, wonCountW, ownSumW, oppSumW, wonMarginsW,
          lossMarginsW, resolvedWith, List.filterMap_cons, isWinB, ownScore, oppScore]
      · simp [statsLoop, hg, ih, hw, wonCountW, ownSumW, oppSumW, wonMarginsW,
          lossMarginsW, resolvedWith, List.filterMap_cons, isWinB, ownScore, oppScore]

theorem seasonStatsLoop_spec (games : List Game) (ps : List GameParticipation) :
    seasonStatsLoop games ps =
      ((resolvedWith (dictGetGame games) ps).length,
       wonCountW (dictGetGame games) ps, ownSumW (dictGetGame games) ps,
       oppSumW (dictGetGame games) ps, wonMarginsW (dictGetGame games) ps,
       lossMarginsW (dictGetGame games) ps) := by
  induction ps with
  | nil =>
    simp [seasonStatsLoop, wonCountW, ownSumW, oppSumW, wonMarginsW,
      lossMarginsW, resolvedWith]
  | cons p rest ih =>
    cases hg : dictGetGame games p.game_id with
    | none =>
      simp [seasonStatsLoop, hg, ih, wonCountW, ownSumW, oppSumW, wonMarginsW,
        lossMarginsW, resolvedWith, List.filterMap_cons]
    | some g =>
      by_cases hw : g.winner_team = p.team_number
      · simp [seasonStatsLoop, hg, ih, hw, wonCountW, ownSumW, oppSumW,
          wonMarginsW, lossMarginsW, resolvedWith, List.filterMap_cons, isWinB,
          ownScore, oppScore]
      · simp [seasonStatsLoop, hg, ih, hw, wonCountW, ownSumW, oppSumW,
          wonMarginsW, lossMarginsW, resolvedWith, List.filterMap_cons, isWinB,
          ownScore, oppScore]

theorem teamStatsLoop_games_played (l : List (Game × Nat)) :
    (teamStatsLoop l).1 = l.length := by
  induction l with
  | nil => simp [teamStatsLoop]
  | cons gt rest ih =>
    by_cases hw : gt.1.winner_team = gt.2
    · simp [teamStatsLoop, hw, ih]
    · simp [teamStatsLoop, hw, ih]

/-! ## Recompute helpers -/

theorem recomputedPlayer_id (games : List Game) (parts : List GameParticipation)
    (player : Player) : (recomputedPlayer games parts player).id = player.id := rfl

theorem recomputedPlayer_name (games : List Game) (parts : List GameParticipation)
    (player : Player) : (recomputedPlayer games parts player).name = player.name := rfl

theorem find?_map_if (l : List Player) (pid : Nat) (p' : Player) (hid : p'.id = pid)
    (h : (l.find? (fun q => q.id == pid)).isSome) :
    (l.map (fun q => if q.id == pid then p' else q)).find? (fun q => q.id == pid)
      = some p' := by
  induction l with
  | nil => simp at h
  | cons a l ih =>
    by_cases ha : a.id = pid
    · simp [List.map_cons, ha, hid]
    · have ha' : (a.id == pid) = false := by simp [ha]
      simp only [List.map_cons, ha', Bool.false_eq_true, if_false]
      rw [List.find?_cons_of_neg _ (by simp [ha])]
      apply ih
      simpa [List.find?_cons_of_neg, ha'] using h

theorem dbGetPlayer_update (db : DB) (pid : Nat) (player : Player)
    (hp : dbGetPlayer db pid = some player) :
    dbGetPlayer (update_single_player_stats db pid) pid
      = some (recomputedPlayer db.games db.participations player) := by
  simp only [dbGetPlayer] at hp
  have hid : player.id = pid := by simpa using List.find?_some hp
  have hmem : (db.players.find? (fun q => q.id == pid)).isSome := by rw [hp]; rfl
  have h2 := find?_map_if db.players pid
    (recomputedPlayer db.games db.participations player)
    (by rw [recomputedPlayer_id, hid]) hmem
  simp only [update_single_player_stats, dbGetPlayer, hp]
  exact h2

/-- C5: the recalculator's `win_percentage` is `won / played * 100`
(`0` when `played = 0`), `avg_win_margin` is the mean of own−opponent
margins over won games (`0` with no wins), and `avg_loss_margin` the mean
of opponent−own margins over lost games (`0` with no losses). -/
theorem C5_recalculator_formulas (db : DB) (pid : Nat) (player : Player)
    (hp : dbGetPlayer db pid = some player) :
    (dbGetPlayer (update_single_player_stats db pid) pid).map
        (fun q => (q.games_played, q.games_won, q.win_percentage,
                   q.avg_win_margin, q.avg_loss_margin))
      = some
          ((playerParts db pid).length,
           wonCountW (gamesGet db.games) (playerParts db pid),
           (if (playerParts db pid).length > 0 then
              (wonCountW (gamesGet db.games) (playerParts db pid) : ℚ)
                / ((playerParts db pid).length : ℚ) * 100
            else 0),
           listMean (wonMarginsW (gamesGet db.games) (playerParts db pid)),
           listMean (lossMarginsW (gamesGet db.games) (playerParts db pid))) := by
  have hp' := hp
  simp only [dbGetPlayer] at hp'
  have hid : player.id = pid := by simpa using List.find?_some hp'
  rw [dbGetPlayer_update db pid player hp]
  simp [recomputedPlayer, statsLoop_spec, hid, playerParts, listMean]

/-- A six-player store with one finished 21–15 game, side 1 winning. -/
def exDB5 : DB :=
  ⟨[⟨1, "Ann Alpha", 0, 0, 0, 0, 0, 0, 0⟩, ⟨2, "Bob Beta", 0, 0, 0, 0, 0, 0, 0⟩,
    ⟨3, "Cam Gamma", 0, 0, 0, 0, 0, 0, 0⟩, ⟨4, "Dee Delta", 0, 0, 0, 0, 0, 0, 0⟩,
    ⟨5, "Eve Epsilon", 0, 0, 0, 0, 0, 0, 0⟩, ⟨6, "Fay Zeta", 0, 0, 0, 0, 0, 0, 0⟩],
   [⟨1, 21, 15, 1, none, 2025⟩],
   [⟨1, 1, 1⟩, ⟨1, 2, 1⟩, ⟨1, 3, 1⟩, ⟨1, 4, 2⟩, ⟨1, 5, 2⟩, ⟨1, 6, 2⟩], []⟩

/-- Witness for C5 at a concrete store: player 1 ends at 1 game, 1 win,
100% win rate, +6 average win margin. -/
theorem C5_witness :
    (dbGetPlayer (update_single_player_stats exDB5 1) 1).map
        (fun q => (q.games_played, q.games_won, q.win_percentage,
                   q.avg_win_margin, q.avg_loss_margin))
      = some (1, 1, 100, 6, 0) :=
  (C5_recalculator_formulas exDB5 1 ⟨1, "Ann Alpha", 0, 0, 0, 0, 0, 0, 0⟩
    (by decide)).trans (by
      simp [playerParts, exDB5, wonCountW, wonMarginsW, lossMarginsW,
        resolvedWith, gamesGet, listMean, isWinB, ownScore, oppScore])

/-! ## C4: on-the-fly recompute matches the cached recompute -/

/-- The seven aggregate values determined by a games table and a
participation history (the common normal form of both recomputations). -/
def specStats (games : List Game) (ps : List GameParticipation) : PlayerStatsVals :=
  { games_played := ps.length,
    games_won := wonCountW (gamesGet games) ps,
    win_percentage :=
      if ps.length > 0 then
        (wonCountW (gamesGet games) ps : ℚ) / (ps.length : ℚ) * 100
      else 0,
    avg_win_margin := listMean (wonMarginsW (gamesGet games) ps),
    avg_loss_margin := listMean (lossMarginsW (gamesGet games) ps),
    total_points_scored := ownSumW (gamesGet games) ps,
    total_points_against := oppSumW (gamesGet games) ps }

theorem cachedStats_recomputedPlayer (games : List Game)
    (parts : List GameParticipation) (player : Player) :
    cachedStats (recomputedPlayer games parts player)
      = specStats games (parts.filter (fun p => p.player_id == player.id)) := by
  simp [recomputedPlayer, cachedStats, specStats, statsLoop_spec, listMean]

theorem dictGet_filter_eq_gamesGet (games : List Game) (game_ids : List Nat)
    (gid : Nat) (hnodup : (games.map (fun g => g.id)).Nodup)
    (hmem : gid ∈ game_ids) :
    dictGetGame (games.filter (fun g => game_ids.contains g.id)) gid
      = gamesGet games gid := by
  have huniq : ∀ a ∈ games.filter (fun g => game_ids.contains g.id),
      ∀ b ∈ games.filter (fun g => game_ids.contains g.id),
      (a.id == gid) = true → (b.id == gid) = true → a = b := by
    intro a ha b hb hpa hpb
    have ha' : a ∈ games := (List.mem_filter.mp ha).1
    have hb' : b ∈ games := (List.mem_filter.mp hb).1
    have hab : a.id = b.id := by
      have h1 : a.id = gid := by simpa using hpa
      have h2 : b.id = gid := by simpa using hpb
      rw [h1, h2]
    exact List.inj_on_of_nodup_map hnodup ha' hb' hab
  rw [dictGetGame, find?_reverse_of_uniq _ _ huniq]
  rw [gamesGet, find?_filter_of_imp]
  intro a hpa
  have ha : a.id = gid := by simpa using hpa
  simp [ha, hmem]

theorem resolvedWith_length_of_all (lookup : Nat → Option Game) :
    ∀ ps : List GameParticipation,
      (∀ p ∈ ps, (lookup p.game_id).isSome) →
      (resolvedWith lookup ps).length = ps.length := by
  intro ps
  induction ps with
  | nil => intro h; simp [resolvedWith]
  | cons p rest ih =>
    intro h
    have hp := h p (List.mem_cons_self p rest)
    have ih' := ih (fun q hq => h q (List.mem_cons_of_mem _ hq))
    cases hl : lookup p.game_id with
    | none => rw [hl] at hp; simp at hp
    | some g => simp [resolvedWith, List.filterMap_cons, hl] at ih' ⊢; exact ih'

theorem resolvedWith_congr (f g : Nat → Option Game) :
    ∀ ps : List GameParticipation,
      (∀ p ∈ ps, f p.game_id = g p.game_id) →
      resolvedWith f ps = resolvedWith g ps := by
  intro ps
  induction ps with
  | nil => intro h; simp [resolvedWith]
  | cons p rest ih =>
    intro h
    have hp := h p (List.mem_cons_self p rest)
    have ih' := ih (fun q hq => h q (List.mem_cons_of_mem _ hq))
    simp [resolvedWith, List.filterMap_cons, hp] at ih' ⊢
    rw [ih']

theorem compute_all_eq_none (db : DB) (player : Player) :
    compute_player_season_stats db player (some "all")
      = compute_player_season_stats db player none := by
  have hall : (!("all" == "") && !("all" == "all")) = false := by decide
  simp only [compute_player_season_stats, hall, Bool.false_eq_true, if_false]

theorem compute_season_none (db : DB) (player : Player)
    (hnodup : (db.games.map (fun g => g.id)).Nodup)
    (href : ∀ p ∈ db.participations, (gamesGet db.games p.game_id).isSome) :
    compute_player_season_stats db player none
      = specStats db.games
          (db.participations.filter (fun p => p.player_id == player.id)) := by
  have hrefps : ∀ p ∈ db.participations.filter (fun p => p.player_id == player.id),
      (gamesGet db.games p.game_id).isSome := fun p hping =>
    href p (List.mem_filter.mp hping).1
  have hlookup : ∀ p ∈ db.participations.filter (fun p => p.player_id == player.id),
      dictGetGame (db.games.filter (fun g =>
        ((db.participations.filter (fun p => p.player_id == player.id)).map
          (fun p => p.game_id)).contains g.id)) p.game_id
      = gamesGet db.games p.game_id := by
    intro p hping
    exact dictGet_filter_eq_gamesGet db.games _ p.game_id hnodup
      (List.mem_map_of_mem _ hping)
  have hres : resolvedWith (dictGetGame (db.games.filter (fun g =>
        ((db.participations.filter (fun p => p.player_id == player.id)).map
          (fun p => p.game_id)).contains g.id)))
        (db.participations.filter (fun p => p.player_id == player.id))
      = resolvedWith (gamesGet db.games)
          (db.participations.filter (fun p => p.player_id == player.id)) :=
    resolvedWith_congr _ _ _ hlookup
  have hlen : (resolvedWith (gamesGet db.games)
        (db.participations.filter (fun p => p.player_id == player.id))).length
      = (db.participations.filter (fun p => p.player_id == player.id)).length :=
    resolvedWith_length_of_all _ _ hrefps
  cases hemp : db.participations.filter (fun p => p.player_id == player.id) with
  | nil =>
    simp only [compute_player_season_stats]
    rw [hemp]
    simp [specStats, zeroStats, wonCountW, wonMarginsW, lossMarginsW, ownSumW,
      oppSumW, resolvedWith, listMean]
  | cons p0 rest =>
    have hne : (((db.participations.filter
        (fun p => p.player_id == player.id)).map (fun p => p.game_id)).isEmpty)
        = false := by
      rw [hemp]; rfl
    simp only [compute_player_season_stats]
    rw [if_neg (by rw [hne]; exact Bool.false_ne_true)]
    rw [seasonStatsLoop_spec]
    simp only [wonCountW, ownSumW, oppSumW, wonMarginsW, lossMarginsW]
      at hres ⊢
    rw [hres, hlen]
    simp only [specStats, wonCountW, ownSumW, oppSumW, wonMarginsW,
      lossMarginsW, listMean]
    rw [← hemp]

/-- C4: with primary-key-unique games and no dangling participation, the
on-the-fly recompute with no season filter (`None` or `'all'`) returns
exactly the seven values the cached recompute writes onto the player row. -/
theorem C4_cache_matches_recompute (db : DB) (pid : Nat) (player : Player)
    (season : Option String)
    (hp : dbGetPlayer db pid = some player)
    (hnodup : (db.games.map (fun g => g.id)).Nodup)
    (href : ∀ p ∈ db.participations, (gamesGet db.games p.game_id).isSome)
    (hseason : season = none ∨ season = some "all") :
    (dbGetPlayer (update_single_player_stats db pid) pid).map cachedStats
      = some (compute_player_season_stats db player season) := by
  rw [dbGetPlayer_update db pid player hp]
  have hcompute : compute_player_season_stats db player season
      = specStats db.games
          (db.participations.filter (fun p => p.player_id == player.id)) := by
    rcases hseason with hs | hs <;> subst hs
    · exact compute_season_none db player hnodup href
    · rw [compute_all_eq_none]; exact compute_season_none db player hnodup href
  rw [hcompute]
  have hmap : Option.map cachedStats
      (some (recomputedPlayer db.games db.participations player))
      = some (cachedStats (recomputedPlayer db.games db.participations player)) := rfl
  rw [hmap, cachedStats_recomputedPlayer]

/-- Witness for C4 at a concrete store: the cached row written for player 4
matches the on-the-fly recompute with no season filter. -/
theorem C4_witness :
    (dbGetPlayer (update_single_player_stats exDB5 4) 4).map cachedStats
      = some (compute_player_season_stats exDB5
          ⟨4, "Dee Delta", 0, 0, 0, 0, 0, 0, 0⟩ none) :=
  C4_cache_matches_recompute exDB5 4 ⟨4, "Dee Delta", 0, 0, 0, 0, 0, 0, 0⟩ none
    (by decide) (by decide) (by decide) (Or.inl rfl)

/-! ## Mutation frame lemmas -/

theorem usps_games (db : DB) (pid : Nat) :
    (update_single_player_stats db pid).games = db.games := by
  simp only [update_single_player_stats]
  cases dbGetPlayer db pid <;> rfl

theorem usps_participations (db : DB) (pid : Nat) :
    (update_single_player_stats db pid).participations = db.participations := by
  simp only [update_single_player_stats]
  cases dbGetPlayer db pid <;> rfl

theorem usps_teams (db : DB) (pid : Nat) :
    (update_single_player_stats db pid).teams = db.teams := by
  simp only [update_single_player_stats]
  cases dbGetPlayer db pid <;> rfl

theorem foldl_usps_games {α : Type} (f : α → Nat) (l : List α) (db : DB) :
    (l.foldl (fun d a => update_single_player_stats d (f a)) db).games
      = db.games := by
  induction l generalizing db with
  | nil => rfl
  | cons a rest ih => rw [List.foldl_cons, ih, usps_games]

theorem foldl_usps_participations {α : Type} (f : α → Nat) (l : List α) (db : DB) :
    (l.foldl (fun d a => update_single_player_stats d (f a)) db).participations
      = db.participations := by
  induction l generalizing db with
  | nil => rfl
  | cons a rest ih => rw [List.foldl_cons, ih, usps_participations]

theorem foldl_usps_teams {α : Type} (f : α → Nat) (l : List α) (db : DB) :
    (l.foldl (fun d a => update_single_player_stats d (f a)) db).teams
      = db.teams := by
  induction l generalizing db with
  | nil => rfl
  | cons a rest ih => rw [List.foldl_cons, ih, usps_teams]

theorem ups_games (db : DB) (game : Game) :
    (update_player_stats db game).games = db.games :=
  foldl_usps_games (fun p : GameParticipation => p.player_id)
    (db.participations.filter (fun p => p.game_id == game.id)) db

theorem ups_participations (db : DB) (game : Game) :
    (update_player_stats db game).participations = db.participations :=
  foldl_usps_participations (fun p : GameParticipation => p.player_id)
    (db.participations.filter (fun p => p.game_id == game.id)) db

theorem ups_teams (db : DB) (game : Game) :
    (update_player_stats db game).teams = db.teams :=
  foldl_usps_teams (fun p : GameParticipation => p.player_id)
    (db.participations.filter (fun p => p.game_id == game.id)) db

theorem le_foldl_max (l : List Nat) (init : Nat) :
    init ≤ l.foldl max init := by
  induction l generalizing init with
  | nil => simp
  | cons x xs ih =>
    rw [List.foldl_cons]
    exact le_trans (Nat.le_max_left init x) (ih (max init x))

theorem mem_le_foldl_max (l : List Nat) (init : Nat) :
    ∀ a ∈ l, a ≤ l.foldl max init := by
  induction l generalizing init with
  | nil => simp
  | cons x xs ih =>
    intro a ha
    rw [List.foldl_cons]
    rcases List.mem_cons.mp ha with h | h
    · subst h
      exact le_trans (Nat.le_max_right init a) (le_foldl_max xs (max init a))
    · exact ih (max init x) a h

theorem mem_games_id_lt_fresh (db : DB) (g : Game) (hg : g ∈ db.games) :
    g.id < freshGameId db := by
  have := mem_le_foldl_max (db.games.map (fun g => g.id)) 0 g.id
    (List.mem_map_of_mem _ hg)
  exact Nat.lt_succ_of_le this

/-- On success, `create_game` appends exactly one game row: fresh id, the
request's scores, the derived winner, a null location, the current year. -/
theorem create_game_games (db : DB) (y : Nat) (gc : GameCreate) (db1 : DB)
    (h : create_game db y gc = .ok db1) :
    db1.games = db.games ++
      [⟨freshGameId db, gc.team1_score, gc.team2_score,
        (if gc.team1_score > gc.team2_score then 1 else 2), none, y⟩] := by
  simp only [create_game] at h
  by_cases hv : (db.players.filter (fun pl =>
      (gc.team1_players ++ gc.team2_players).contains pl.id)).length ≠ 6
  · rw [if_pos hv] at h; cases h
  · rw [if_neg hv] at h
    cases h
    rw [ups_games]

/-- On success, `update_game` replaces the matching game row by one with
the merged scores and rederived winner; other rows are untouched. -/
theorem update_game_games (db : DB) (gid : Nat) (gu : GameUpdate) (db2 : DB)
    (g0 : Game) (hg : dbGetGame db gid = some g0)
    (h : update_game db gid gu = .ok db2) :
    db2.games = db.games.map (fun g => if g.id == gid then
      { g0 with team1_score := gu.team1_score.getD g0.team1_score,
                team2_score := gu.team2_score.getD g0.team2_score,
                winner_team :=
                  if gu.team1_score.getD g0.team1_score
                      > gu.team2_score.getD g0.team2_score then 1 else 2 }
      else g) := by
  simp only [update_game, hg] at h
  by_cases hps : (gu.team1_players.isSome || gu.team2_players.isSome) = true
  · rw [if_pos hps] at h
    by_cases herr : ((gu.team1_players.getD [] ++ gu.team2_players.getD []).length ≠ 0
        && (db.players.filter (fun pl =>
            (gu.team1_players.getD [] ++ gu.team2_players.getD []).contains pl.id)).length
          ≠ (gu.team1_players.getD [] ++ gu.team2_players.getD []).length) = true
    · rw [if_pos herr] at h; cases h
    · rw [if_neg herr] at h
      cases h
      rw [foldl_usps_games (fun pid : Nat => pid)]
  · rw [if_neg hps] at h
    cases h
    rw [ups_games]

/-- C6: the winner flag stored by `create_game` and rederived by
`update_game` is 1 exactly when `team1_score` is strictly greater than
`team2_score`, and 2 otherwise — so equal scores record side 2 as winner. -/
theorem C6_winner_derivation (db : DB) (y : Nat) (gc : GameCreate) (db1 : DB)
    (gid : Nat) (gu : GameUpdate) (db2 : DB) (g0 : Game) :
    (create_game db y gc = .ok db1 →
      ∀ g ∈ db1.games, g.id = freshGameId db →
        ((g.winner_team = 1 ↔ g.team2_score < g.team1_score) ∧
         (g.winner_team = 2 ↔ ¬ g.team2_score < g.team1_score))) ∧
    (dbGetGame db gid = some g0 → update_game db gid gu = .ok db2 →
      ∀ g ∈ db2.games, g.id = gid →
        (g.team1_score = gu.team1_score.getD g0.team1_score ∧
         g.team2_score = gu.team2_score.getD g0.team2_score ∧
         (g.winner_team = 1 ↔ g.team2_score < g.team1_score) ∧
         (g.winner_team = 2 ↔ ¬ g.team2_score < g.team1_score))) := by
  constructor
  · intro h g hg hid
    rw [create_game_games db y gc db1 h] at hg
    rcases List.mem_append.mp hg with hold | hnew
    · exact absurd hid (Nat.ne_of_lt (mem_games_id_lt_fresh db g hold))
    · have hg' : g = ⟨freshGameId db, gc.team1_score, gc.team2_score,
          (if gc.team1_score > gc.team2_score then 1 else 2), none, y⟩ := by
        simpa using hnew
      subst hg'
      by_cases hlt : gc.team2_score < gc.team1_score
      · simp [hlt, GT.gt]
      · simp [hlt, GT.gt]
  · intro hg0 h g hg hid
    rw [update_game_games db gid gu db2 g0 hg0 h] at hg
    rcases List.mem_map.mp hg with ⟨q, hq, hmap⟩
    have hg0' := hg0
    simp only [dbGetGame, gamesGet] at hg0'
    have hg0id : g0.id = gid := by simpa using List.find?_some hg0'
    by_cases hqid : q.id = gid
    · rw [if_pos (by simpa using hqid)] at hmap
      subst hmap
      refine ⟨rfl, rfl, ?_, ?_⟩ <;>
        by_cases hlt : gu.team2_score.getD g0.team2_score
            < gu.team1_score.getD g0.team1_score <;>
        simp [hlt, GT.gt]
    · rw [if_neg (by simpa using hqid)] at hmap
      subst hmap
      exact absurd hid hqid

/-- The pre-existing game row of `exDB5`. -/
def exGame1 : Game := ⟨1, 21, 15, 1, none, 2025⟩

/-- Create request used for concrete evaluation. -/
def exGC : GameCreate := ⟨21, 15, [1, 2, 3], [4, 5, 6], none⟩

/-- Score-only update request used for concrete evaluation. -/
def exGU : GameUpdate := ⟨some 10, none, none, none, none⟩

/-- The store produced by the concrete `create_game` call. -/
def exDB6c : DB := (create_game exDB5 2025 exGC).toOption.getD ⟨[], [], [], []⟩

/-- The store produced by the concrete `update_game` call. -/
def exDB6u : DB := (update_game exDB5 1 exGU).toOption.getD ⟨[], [], [], []⟩

/-- The game row created by the concrete `create_game` call. -/
def exG6 : Game := ⟨2, 21, 15, 1, none, 2025⟩

/-- The game row left by the concrete `update_game` call (10–15: side 2 wins). -/
def exG6u : Game := ⟨1, 10, 15, 2, none, 2025⟩

/-- Witness for C6: the created 21–15 game records winner 1; the update to
10–15 rederives winner 2. -/
theorem C6_witness :
    ((exG6.winner_team = 1 ↔ exG6.team2_score < exG6.team1_score) ∧
     (exG6.winner_team = 2 ↔ ¬ exG6.team2_score < exG6.team1_score)) ∧
    (exG6u.team1_score = (exGU.team1_score.getD exGame1.team1_score) ∧
     exG6u.team2_score = (exGU.team2_score.getD exGame1.team2_score) ∧
     (exG6u.winner_team = 1 ↔ exG6u.team2_score < exG6u.team1_score) ∧
     (exG6u.winner_team = 2 ↔ ¬ exG6u.team2_score < exG6u.team1_score)) :=
  ⟨(C6_winner_derivation exDB5 2025 exGC exDB6c 1 exGU exDB6u exGame1).1
      (by rfl) exG6 (by decide) (by decide),
   (C6_winner_derivation exDB5 2025 exGC exDB6c 1 exGU exDB6u exGame1).2
      (by decide) (by rfl) exG6u (by decide) (by decide)⟩

/-- C10: the optional `location` of the create/update request bodies is
never applied — `create_game` and `update_game` are wholly independent of
it, every game row `create_game` adds has a null location, and
`update_game` leaves every row's location unchanged. -/
theorem C10_location_ignored (db : DB) (y : Nat) (gc : GameCreate)
    (l l2 : Option String) (gid : Nat) (gu : GameUpdate) :
    create_game db y { gc with location := l } = create_game db y gc ∧
    update_game db gid { gu with location := l2 } = update_game db gid gu ∧
    (∀ db1, create_game db y gc = .ok db1 →
      ∀ g ∈ db1.games, g ∈ db.games ∨ g.location = none) ∧
    (∀ db2, update_game db gid gu = .ok db2 →
      ∀ g ∈ db2.games, ∃ g' ∈ db.games, g'.id = g.id ∧ g.location = g'.location) := by
  refine ⟨rfl, rfl, ?_, ?_⟩
  · intro db1 h g hg
    rw [create_game_games db y gc db1 h] at hg
    rcases List.mem_append.mp hg with hold | hnew
    · exact Or.inl hold
    · right
      have hg' : g = ⟨freshGameId db, gc.team1_score, gc.team2_score,
          (if gc.team1_score > gc.team2_score then 1 else 2), none, y⟩ := by
        simpa using hnew
      rw [hg']
  · intro db2 h g hg
    cases hg0 : dbGetGame db gid with
    | none => simp only [update_game, hg0] at h; cases h
    | some g0 =>
      rw [update_game_games db gid gu db2 g0 hg0 h] at hg
      rcases List.mem_map.mp hg with ⟨q, hq, hmap⟩
      by_cases hqid : q.id = gid
      · rw [if_pos (by simpa using hqid)] at hmap
        subst hmap
        have hg0mem : g0 ∈ db.games := by
          have hg0' := hg0
          simp only [dbGetGame, gamesGet] at hg0'
          exact List.mem_of_find?_eq_some hg0'
        exact ⟨g0, hg0mem, rfl, rfl⟩
      · rw [if_neg (by simpa using hqid)] at hmap
        subst hmap
        exact ⟨q, hq, rfl, rfl⟩

/-- Witness for C10: requests with and without a location behave
identically on the concrete store, the created game's location is null,
and the updated game keeps its previous (null) location. -/
theorem C10_witness :
    (create_game exDB5 2025 { exGC with location := some "Clubhouse" }
        = create_game exDB5 2025 exGC) ∧
    (update_game exDB5 1 { exGU with location := some "Clubhouse" }
        = update_game exDB5 1 exGU) ∧
    (exG6 ∈ exDB5.games ∨ exG6.location = none) ∧
    exG6u.location = exGame1.location := by
  have h := C10_location_ignored exDB5 2025 exGC (some "Clubhouse")
    (some "Clubhouse") 1 exGU
  refine ⟨h.1, h.2.1, h.2.2.1 exDB6c (by rfl) exG6 (by decide), ?_⟩
  obtain ⟨g', hg', hid, hloc⟩ := h.2.2.2 exDB6u (by rfl) exG6u (by decide)
  have hg'' : g' = exGame1 := by
    have : exDB5.games = [exGame1] := rfl
    rw [this] at hg'
    simpa using hg'
  rw [hloc, hg'']

/-! ## C1: the rivalry matching rule -/

theorem contains_iff_mem (l : List String) (x : String) :
    l.contains x = true ↔ x ∈ l := by
  induction l with
  | nil => simp
  | cons a t ih => simp

theorem orchardB_iff (l : List String) :
    ((l.all (fun x => ORCHARD_PLAYERS.contains x) = true
        ∧ (l.length == 3) = true)
      ∧ setEqB l ORCHARD_PLAYERS = true) ↔ SideIsOrchard l := by
  simp only [Bool.and_eq_true, List.all_eq_true, setEqB, beq_iff_eq,
    contains_iff_mem, SideIsOrchard]
  constructor
  · rintro ⟨⟨hsub, hlen⟩, hsub', hsup⟩
    exact ⟨hlen, fun x => ⟨fun hx => hsub' x hx, fun hx => hsup x hx⟩⟩
  · rintro ⟨hlen, hiff⟩
    exact ⟨⟨fun x hx => (hiff x).mp hx, hlen⟩,
           fun x hx => (hiff x).mp hx, fun x hx => (hiff x).mpr hx⟩

theorem dreherB_iff (l : List String) :
    (l.all (fun x => DREHER_PLAYERS.contains x) = true
        ∧ (l.length == 3) = true)
      ↔ SideIsDreherSubset l := by
  simp only [Bool.and_eq_true, List.all_eq_true, beq_iff_eq,
    contains_iff_mem, SideIsDreherSubset]
  exact ⟨fun h => ⟨h.2, h.1⟩, fun h => ⟨h.2, h.1⟩⟩

/-- C1 (amended): a game is classified as a rivalry game iff one side's
name set is an exact set-equality match to the Orchard roster (3 names)
and the other side has exactly 3 names each drawn from the four-name
Dreher roster — exact set-equality against the Dreher list is not
required. -/
theorem C1_rivalry_match_rule (db : DB) (game : Game) :
    (is_rivalry_game db game).isSome = true ↔
      ((SideIsOrchard (game_team1_names db game.id)
          ∧ SideIsDreherSubset (game_team2_names db game.id)) ∨
       (SideIsDreherSubset (game_team1_names db game.id)
          ∧ SideIsOrchard (game_team2_names db game.id))) := by
  have key : ∀ (c1 c2 : Bool) (a b : RivalryInfo),
      ((if c1 = true then some a else if c2 = true then some b
        else none).isSome = true)
        ↔ (c1 = true ∨ c2 = true) := by
    intro c1 c2 a b
    cases c1 <;> cases c2 <;> simp
  simp only [is_rivalry_game]
  rw [key]
  simp only [Bool.and_eq_true]
  rw [orchardB_iff, orchardB_iff, dreherB_iff, dreherB_iff]

/-- Store whose game 1 has the exact Orchard roster on side 1 and three of
the four Dreher names on side 2. -/
def exDBr : DB :=
  ⟨[⟨1, "Sean Nary", 0, 0, 0, 0, 0, 0, 0⟩,
    ⟨2, "Tyler Pendleton", 0, 0, 0, 0, 0, 0, 0⟩,
    ⟨3, "Reid Silverman", 0, 0, 0, 0, 0, 0, 0⟩,
    ⟨4, "Jeremy Cortazzo", 0, 0, 0, 0, 0, 0, 0⟩,
    ⟨5, "Danny Wersching", 0, 0, 0, 0, 0, 0, 0⟩,
    ⟨6, "AJ Partridge", 0, 0, 0, 0, 0, 0, 0⟩],
   [⟨1, 21, 15, 1, none, 2025⟩],
   [⟨1, 1, 1⟩, ⟨1, 2, 1⟩, ⟨1, 3, 1⟩, ⟨1, 4, 2⟩, ⟨1, 5, 2⟩, ⟨1, 6, 2⟩], []⟩

/-- Counterexample to C1 as stated: side 1 set-equals the Orchard roster,
side 2 is *not* a set-equality match to the Dreher roster (it has 3 of
its 4 names), yet `is_rivalry_game` classifies the game as a rivalry
game.  -/
theorem C1_counterexample :
    setEqB (game_team1_names exDBr 1) ORCHARD_PLAYERS = true ∧
    (game_team1_names exDBr 1).length = 3 ∧
    setEqB (game_team2_names exDBr 1) DREHER_PLAYERS = false ∧
    is_rivalry_game exDBr ⟨1, 21, 15, 1, none, 2025⟩ ≠ none := by
  refine ⟨by decide, by decide, by decide, by decide⟩

/-! ## C3: the 3-game team threshold -/

/-- C3 (amended): with fewer than 3 game ids `create_or_update_team`
returns null and leaves the store — including any existing Team row for
the triple — untouched; with 3 or more (and the three players present) it
returns a Team row for the triple with `games_played` the number of ids. -/
theorem C3_team_threshold (db : DB) (a b c : Nat) (game_ids : List Nat)
    (pl1 pl2 pl3 : Player)
    (h1 : dbGetPlayer db a = some pl1) (h2 : dbGetPlayer db b = some pl2)
    (h3 : dbGetPlayer db c = some pl3) :
    (game_ids.length < 3 →
      create_or_update_team db (a, b, c) game_ids = .ok (none, db)) ∧
    (3 ≤ game_ids.length →
      match create_or_update_team db (a, b, c) game_ids with
      | .ok (some t, _) => t.player1_id = a ∧ t.player2_id = b ∧ t.player3_id = c
          ∧ t.games_played = game_ids.length
      | _ => False) := by
  constructor
  · intro hlt
    simp only [create_or_update_team]
    rw [if_pos hlt]
  · intro hge
    have hnlt : ¬ game_ids.length < 3 := not_lt.mpr hge
    simp only [create_or_update_team, h1, h2, h3]
    rw [if_neg hnlt]
    cases hex : db.teams.find? (fun t =>
        t.player1_id == a && t.player2_id == b && t.player3_id == c) with
    | none => exact ⟨rfl, rfl, rfl, rfl⟩
    | some t =>
      have hpred := List.find?_some hex
      simp only [Bool.and_eq_true, beq_iff_eq] at hpred
      exact ⟨hpred.1.1, hpred.1.2, hpred.2, rfl⟩

/-- A Team row for the triple (1, 2, 3). -/
def exTeam123 : Team := ⟨1, 1, 2, 3, "Alpha/Beta/Gamma", 3, 3, 63, 45, 100, 6, 0⟩

/-- The store of `exDB5` with an existing Team row for (1, 2, 3). -/
def exDB3 : DB := ⟨exDB5.players, exDB5.games, exDB5.participations, [exTeam123]⟩

/-- Counterexample to C3 as stated: with 2 game ids the call returns null
but the existing Team row for the triple is not deleted — the store comes
back entirely unchanged. -/
theorem C3_counterexample :
    create_or_update_team exDB3 (1, 2, 3) [10, 11] = .ok (none, exDB3) ∧
    exDB3.teams = [exTeam123] :=
  ⟨rfl, rfl⟩

/-- Witness for C3 at a concrete store: 2 ids → null and untouched store;
3 ids → a Team row for (1, 2, 3) with 3 games played. -/
theorem C3_witness :
    create_or_update_team exDB3 (1, 2, 3) [10, 11] = .ok (none, exDB3) ∧
    (match create_or_update_team exDB3 (1, 2, 3) [1, 10, 11] with
     | .ok (some t, _) => t.player1_id = 1 ∧ t.player2_id = 2 ∧ t.player3_id = 3
         ∧ t.games_played = 3
     | _ => False) :=
  ⟨(C3_team_threshold exDB3 1 2 3 [10, 11]
      ⟨1, "Ann Alpha", 0, 0, 0, 0, 0, 0, 0⟩ ⟨2, "Bob Beta", 0, 0, 0, 0, 0, 0, 0⟩
      ⟨3, "Cam Gamma", 0, 0, 0, 0, 0, 0, 0⟩
      (by decide) (by decide) (by decide)).1 (by decide),
   (C3_team_threshold exDB3 1 2 3 [1, 10, 11]
      ⟨1, "Ann Alpha", 0, 0, 0, 0, 0, 0, 0⟩ ⟨2, "Bob Beta", 0, 0, 0, 0, 0, 0, 0⟩
      ⟨3, "Cam Gamma", 0, 0, 0, 0, 0, 0, 0⟩
      (by decide) (by decide) (by decide)).2 (by decide)⟩

/-! ## C2: effects of deleting a game -/

/-- The canonical player triple of a Team row. -/
def keyOf (t : Team) : Nat × Nat × Nat :=
  (t.player1_id, t.player2_id, t.player3_id)

/-- Number of game rows in which the triple occurs as a full side. -/
def specGameCount (db : DB) (k : Nat × Nat × Nat) : Nat :=
  (db.games.filter (fun g =>
    sideTriple db.participations g.id 1 == some k
      || sideTriple db.participations g.id 2 == some k)).length

theorem recomputedPlayer_congr (games : List Game)
    (parts : List GameParticipation) (p q : Player)
    (hid : p.id = q.id) (hname : p.name = q.name) :
    recomputedPlayer games parts p = recomputedPlayer games parts q := by
  cases p; cases q
  simp only at hid hname
  simp [recomputedPlayer, hid, hname]

theorem usps_player_ids (db : DB) (pid : Nat) :
    (update_single_player_stats db pid).players.map (fun q => q.id)
      = db.players.map (fun q => q.id) := by
  simp only [update_single_player_stats]
  cases hp : dbGetPlayer db pid with
  | none => rfl
  | some player =>
    have hpid : player.id = pid := by
      simp only [dbGetPlayer] at hp
      simpa using List.find?_some hp
    simp only [List.map_map]
    apply List.map_congr_left
    intro q hq
    by_cases h : q.id = pid
    · simp [Function.comp, h, recomputedPlayer_id, hpid]
    · simp [Function.comp, h]

theorem foldl_usps_players (pids : List Nat) (db : DB)
    (hnodup : (db.players.map (fun q => q.id)).Nodup) :
    (pids.foldl (fun d pid => update_single_player_stats d pid) db).players
      = db.players.map (fun q => if pids.contains q.id
          then recomputedPlayer db.games db.participations q else q) := by
  induction pids generalizing db with
  | nil =>
    simp
  | cons pid rest ih =>
    rw [List.foldl_cons]
    have hnodup' : ((update_single_player_stats db pid).players.map
        (fun q => q.id)).Nodup := by
      rw [usps_player_ids]; exact hnodup
    rw [ih (update_single_player_stats db pid) hnodup']
    rw [usps_games, usps_participations]
    simp only [update_single_player_stats]
    cases hp : dbGetPlayer db pid with
    | none =>
      have hnone : ∀ q ∈ db.players, ¬ q.id = pid := by
        simp only [dbGetPlayer] at hp
        intro q hq hqid
        have hnp := List.find?_eq_none.mp hp q hq
        simp [hqid] at hnp
      apply List.map_congr_left
      intro q hq
      simp [List.contains_cons, hnone q hq]
    | some player =>
      have hpid : player.id = pid := by
        simp only [dbGetPlayer] at hp
        simpa using List.find?_some hp
      have hplmem : player ∈ db.players := by
        simp only [dbGetPlayer] at hp
        exact List.mem_of_find?_eq_some hp
      simp only [List.map_map]
      apply List.map_congr_left
      intro q hq
      by_cases h : q.id = pid
      · have hqp : q = player :=
          List.inj_on_of_nodup_map hnodup hq hplmem (h.trans hpid.symm)
        subst hqp
        have hcontains : (pid :: rest).contains q.id = true := by
          simp [List.contains_cons, h]
        simp only [Function.comp, h, beq_self_eq_true, if_true, hcontains]
        have hcont2 : ((pid :: rest).contains pid) = true := by
          simp [List.contains_cons]
        have hRR : recomputedPlayer db.games db.participations
            (recomputedPlayer db.games db.participations q)
            = recomputedPlayer db.games db.participations q :=
          recomputedPlayer_congr _ _ _ _ (recomputedPlayer_id _ _ _)
            (recomputedPlayer_name _ _ _)
        by_cases hrest : pid ∈ rest
        · have hmemrest : (recomputedPlayer db.games db.participations q).id
              ∈ rest := by
            rw [recomputedPlayer_id, h]; exact hrest
          rw [if_pos (by simpa using hmemrest), if_pos hcont2]
          exact hRR
        · have hmemrest : ¬ ((recomputedPlayer db.games db.participations q).id
              ∈ rest) := by
            rw [recomputedPlayer_id, h]; exact hrest
          rw [if_neg (by simpa using hmemrest), if_pos hcont2]
      · have hqid : (q.id == pid) = false := by simp [h]
        simp [Function.comp, hqid, List.contains_cons, h]

/-- C2 (amended): `delete_game` removes the game row and its
participation rows and rewrites exactly the participants' Player rows
with a full recompute over the post-delete store; it performs no
team-discovery pass, so the Team table is returned unchanged. -/
theorem C2_delete_game_effects (db : DB) (gid : Nat) (db' : DB)
    (hnodup : (db.players.map (fun q => q.id)).Nodup)
    (h : delete_game db gid = .ok db') :
    db'.teams = db.teams ∧
    db'.games = db.games.filter (fun g => g.id != gid) ∧
    db'.participations = db.participations.filter (fun p => p.game_id != gid) ∧
    db'.players = db.players.map (fun q =>
      if ((db.participations.filter (fun p => p.game_id == gid)).map
            (fun p => p.player_id)).contains q.id
      then recomputedPlayer (db.games.filter (fun g => g.id != gid))
             (db.participations.filter (fun p => p.game_id != gid)) q
      else q) := by
  cases hg : dbGetGame db gid with
  | none => simp only [delete_game, hg] at h; cases h
  | some g0 =>
    simp only [delete_game, hg] at h
    cases h
    refine ⟨?_, ?_, ?_, ?_⟩
    · rw [foldl_usps_teams (fun pid : Nat => pid)]
    · rw [foldl_usps_games (fun pid : Nat => pid)]
    · rw [foldl_usps_participations (fun pid : Nat => pid)]
    · have hnodup1 : ((DB.mk db.players (db.games.filter (fun g => g.id != gid))
          (db.participations.filter (fun p => p.game_id != gid))
          db.teams).players.map (fun q => q.id)).Nodup := hnodup
      rw [foldl_usps_players ((db.participations.filter
            (fun p => p.game_id == gid)).map (fun p => p.player_id))
          (DB.mk db.players (db.games.filter (fun g => g.id != gid))
            (db.participations.filter (fun p => p.game_id != gid)) db.teams)
          hnodup1]

/-- A Team row for the triple (1, 2, 3) with 3 games played. -/
def exTeam2 : Team := ⟨1, 1, 2, 3, "Alpha/Beta/Gamma", 3, 3, 63, 45, 100, 6, 0⟩

/-- Store with three games, each played by the full side (1, 2, 3) against
(4, 5, 6), and the Team row discovered from them. -/
def exDB2 : DB :=
  ⟨exDB5.players,
   [⟨1, 21, 15, 1, none, 2025⟩, ⟨2, 21, 15, 1, none, 2025⟩,
    ⟨3, 21, 15, 1, none, 2025⟩],
   [⟨1, 1, 1⟩, ⟨1, 2, 1⟩, ⟨1, 3, 1⟩, ⟨1, 4, 2⟩, ⟨1, 5, 2⟩, ⟨1, 6, 2⟩,
    ⟨2, 1, 1⟩, ⟨2, 2, 1⟩, ⟨2, 3, 1⟩, ⟨2, 4, 2⟩, ⟨2, 5, 2⟩, ⟨2, 6, 2⟩,
    ⟨3, 1, 1⟩, ⟨3, 2, 1⟩, ⟨3, 3, 1⟩, ⟨3, 4, 2⟩, ⟨3, 5, 2⟩, ⟨3, 6, 2⟩],
   [exTeam2]⟩

/-- Counterexample to C2 as stated: deleting game 3 drops the (1, 2, 3)
side count to 2, below the 3-game threshold, yet the Team table comes
back unchanged — no team-discovery recomputation runs and no Team row is
deleted. -/
theorem C2_counterexample :
    ((delete_game exDB2 3).toOption.map DB.teams = some exDB2.teams) ∧
    ((delete_game exDB2 3).toOption.map
        (fun db' => specGameCount db' (1, 2, 3)) = some 2) ∧
    exDB2.teams.map keyOf = [(1, 2, 3)] := by
  refine ⟨by decide, by decide, by decide⟩

/-- The store produced by the concrete `delete_game` call. -/
def exDB2d : DB := (delete_game exDB2 3).toOption.getD ⟨[], [], [], []⟩

/-- Witness for the amended C2 at a concrete store: teams unchanged, game
and participation rows filtered, and exactly the participants' rows
rewritten by the recompute. -/
theorem C2_witness :
    exDB2d.teams = exDB2.teams ∧
    exDB2d.games = exDB2.games.filter (fun g => g.id != 3) ∧
    exDB2d.participations = exDB2.participations.filter (fun p => p.game_id != 3) ∧
    exDB2d.players = exDB2.players.map (fun q =>
      if ((exDB2.participations.filter (fun p => p.game_id == 3)).map
            (fun p => p.player_id)).contains q.id
      then recomputedPlayer (exDB2.games.filter (fun g => g.id != 3))
             (exDB2.participations.filter (fun p => p.game_id != 3)) q
      else q) := by
  have h := C2_delete_game_effects exDB2 3 exDB2d (by decide) (by rfl)
  exact h

/-! ## C7: golf round derivation and golf aggregates -/

/-- Resolve golf participations against the rounds table. -/
def golfResolved (gdb : GolfDB) (ps : List GolfParticipation) :
    List (GolfParticipation × GolfRound) :=
  ps.filterMap (fun p => (gdbGetRound gdb p.round_id).map (fun r => (p, r)))

/-- Spec: the round's winner side equals the participant's side. -/
def golfIsWon (pr : GolfParticipation × GolfRound) : Bool :=
  pr.2.winner_team == some pr.1.team_number

/-- Spec: the round has a null winner (draw). -/
def golfIsDrawn (pr : GolfParticipation × GolfRound) : Bool :=
  pr.2.winner_team == none

/-- Spec: the round has a winner and it is not the participant's side. -/
def golfIsLost (pr : GolfParticipation × GolfRound) : Bool :=
  !golfIsWon pr && !golfIsDrawn pr

theorem golfStatsLoop_spec (gdb : GolfDB) (ps : List GolfParticipation) :
    golfStatsLoop gdb ps =
      (((golfResolved gdb ps).filter golfIsWon).length,
       ((golfResolved gdb ps).filter golfIsLost).length,
       ((golfResolved gdb ps).filter golfIsDrawn).length,
       ((golfResolved gdb ps).map (fun pr =>
          if pr.1.team_number == 1 then pr.2.team1_holes_won
          else pr.2.team2_holes_won)).sum,
       ((golfResolved gdb ps).map (fun pr =>
          if pr.1.team_number == 1 then pr.2.team2_holes_won
          else pr.2.team1_holes_won)).sum) := by
  induction ps with
  | nil => simp [golfStatsLoop, golfResolved]
  | cons p rest ih =>
    cases hr : gdbGetRound gdb p.round_id with
    | none =>
      simp [golfStatsLoop, hr, ih, golfResolved, List.filterMap_cons]
    | some r =>
      cases hw : r.winner_team with
      | none =>
        simp [golfStatsLoop, hr, hw, ih, golfResolved, List.filterMap_cons,
          golfIsWon, golfIsDrawn, golfIsLost]
      | some w =>
        by_cases hweq : w = p.team_number
        · simp [golfStatsLoop, hr, hw, hweq, ih, golfResolved,
            List.filterMap_cons, golfIsWon, golfIsDrawn, golfIsLost]
        · simp [golfStatsLoop, hr, hw, hweq, ih, golfResolved,
            List.filterMap_cons, golfIsWon, golfIsDrawn, golfIsLost]

theorem gfind?_map_if (l : List GolfPlayer) (pid : Nat) (p' : GolfPlayer)
    (hid : p'.id = pid)
    (h : (l.find? (fun q => q.id == pid)).isSome) :
    (l.map (fun q => if q.id == pid then p' else q)).find? (fun q => q.id == pid)
      = some p' := by
  induction l with
  | nil => simp at h
  | cons a l ih =>
    by_cases ha : a.id = pid
    · simp [List.map_cons, ha, hid]
    · have ha' : (a.id == pid) = false := by simp [ha]
      simp only [List.map_cons, ha', Bool.false_eq_true, if_false]
      rw [List.find?_cons_of_neg _ (by simp [ha])]
      apply ih
      simpa [List.find?_cons_of_neg, ha'] using h

/-- C7: the stored hole-count fields equal the number of hole results won
by side 1, side 2 and halved; the round winner is the side with strictly
more holes (null on equality); and each participant's golf aggregates
classify each resolved round as won, lost or drawn by comparing the
round's winner side to the participant's side (null counting as drawn). -/
theorem C7_golf_round_results (rid : Nat) (holes : List GolfHoleInput)
    (gdb : GolfDB) (pid : Nat) (player : GolfPlayer)
    (hp : gdbGetPlayer gdb pid = some player) :
    ((mkGolfRound rid holes).team1_holes_won
        = holes.countP (fun h => h.winner_team == some 1) ∧
     (mkGolfRound rid holes).team2_holes_won
        = holes.countP (fun h => h.winner_team == some 2) ∧
     (mkGolfRound rid holes).halved_holes
        = holes.countP (fun h => h.winner_team == none)) ∧
    ((mkGolfRound rid holes).winner_team = some 1 ↔
        holes.countP (fun h => h.winner_team == some 2)
          < holes.countP (fun h => h.winner_team == some 1)) ∧
    ((mkGolfRound rid holes).winner_team = some 2 ↔
        holes.countP (fun h => h.winner_team == some 1)
          < holes.countP (fun h => h.winner_team == some 2)) ∧
    ((mkGolfRound rid holes).winner_team = none ↔
        holes.countP (fun h => h.winner_team == some 1)
          = holes.countP (fun h => h.winner_team == some 2)) ∧
    ((gdbGetPlayer (update_single_player_golf_stats gdb pid) pid).map
        (fun q => (q.golf_rounds_played, q.golf_rounds_won, q.golf_rounds_lost,
                   q.golf_rounds_drawn))
      = some
          ((gdb.participations.filter (fun p => p.player_id == pid)).length,
           ((golfResolved gdb (gdb.participations.filter
              (fun p => p.player_id == pid))).filter golfIsWon).length,
           ((golfResolved gdb (gdb.participations.filter
              (fun p => p.player_id == pid))).filter golfIsLost).length,
           ((golfResolved gdb (gdb.participations.filter
              (fun p => p.player_id == pid))).filter golfIsDrawn).length)) := by
  have hc1 : (holes.filter (fun h => h.winner_team == some 1)).length
      = holes.countP (fun h => h.winner_team == some 1) :=
    (List.countP_eq_length_filter _ _).symm
  have hc2 : (holes.filter (fun h => h.winner_team == some 2)).length
      = holes.countP (fun h => h.winner_team == some 2) :=
    (List.countP_eq_length_filter _ _).symm
  have hc0 : (holes.filter (fun h => h.winner_team == none)).length
      = holes.countP (fun h => h.winner_team == none) :=
    (List.countP_eq_length_filter _ _).symm
  refine ⟨⟨by simp [mkGolfRound, calculate_round_results, hc1],
           by simp [mkGolfRound, calculate_round_results, hc2],
           by simp [mkGolfRound, calculate_round_results, hc0]⟩, ?_, ?_, ?_, ?_⟩
  · simp only [mkGolfRound, calculate_round_results, hc1, hc2]
    rcases Nat.lt_trichotomy (holes.countP (fun h => h.winner_team == some 1))
      (holes.countP (fun h => h.winner_team == some 2)) with h | h | h
    · simp [Nat.not_lt_of_lt h, h, GT.gt, Nat.lt_asymm h]
    · simp [h, Nat.lt_irrefl, GT.gt]
    · simp [h, GT.gt, Nat.lt_asymm h]
  · simp only [mkGolfRound, calculate_round_results, hc1, hc2]
    rcases Nat.lt_trichotomy (holes.countP (fun h => h.winner_team == some 1))
      (holes.countP (fun h => h.winner_team == some 2)) with h | h | h
    · simp [h, GT.gt, Nat.lt_asymm h]
    · simp [h, Nat.lt_irrefl, GT.gt]
    · simp [Nat.not_lt_of_lt h, h, GT.gt, Nat.lt_asymm h]
  · simp only [mkGolfRound, calculate_round_results, hc1, hc2]
    rcases Nat.lt_trichotomy (holes.countP (fun h => h.winner_team == some 1))
      (holes.countP (fun h => h.winner_team == some 2)) with h | h | h
    · simp [h, GT.gt, Nat.lt_asymm h, Nat.ne_of_lt h]
    · simp [h, Nat.lt_irrefl, GT.gt]
    · simp [Nat.not_lt_of_lt h, h, GT.gt, Nat.lt_asymm h, (Nat.ne_of_lt h).symm]
  · have hp' := hp
    simp only [gdbGetPlayer] at hp'
    have hid : player.id = pid := by simpa using List.find?_some hp'
    simp only [update_single_player_golf_stats, gdbGetPlayer, hp']
    rw [gfind?_map_if _ _ _ (by simpa using hid) (by rw [hp']; rfl)]
    simp [golfStatsLoop_spec]

/-- 18 hole results: 10 won by side 1, 6 by side 2, 2 halved. -/
def exHoles : List GolfHoleInput :=
  [⟨1, some 1⟩, ⟨2, some 1⟩, ⟨3, some 1⟩, ⟨4, some 1⟩, ⟨5, some 1⟩,
   ⟨6, some 1⟩, ⟨7, some 1⟩, ⟨8, some 1⟩, ⟨9, some 1⟩, ⟨10, some 1⟩,
   ⟨11, some 2⟩, ⟨12, some 2⟩, ⟨13, some 2⟩, ⟨14, some 2⟩, ⟨15, some 2⟩,
   ⟨16, some 2⟩, ⟨17, none⟩, ⟨18, none⟩]

/-- Golf store: four players, the round stored for `exHoles`, and the 2v2
participations. -/
def exGDB : GolfDB :=
  ⟨[⟨1, "Gail Golfer", 0, 0, 0, 0, 0, 0, 0⟩, ⟨2, "Hal Putter", 0, 0, 0, 0, 0, 0, 0⟩,
    ⟨3, "Ida Driver", 0, 0, 0, 0, 0, 0, 0⟩, ⟨4, "Jon Wedge", 0, 0, 0, 0, 0, 0, 0⟩],
   [mkGolfRound 1 exHoles],
   [⟨1, 1, 1⟩, ⟨1, 2, 1⟩, ⟨1, 3, 2⟩, ⟨1, 4, 2⟩]⟩

/-- Witness for C7: the 10–6–2 round stores winner 1 and counts 10/6/2,
and player 1 (side 1) ends with 1 round played and 1 won. -/
theorem C7_witness :
    ((mkGolfRound 1 exHoles).team1_holes_won
        = exHoles.countP (fun h => h.winner_team == some 1) ∧
     (mkGolfRound 1 exHoles).halved_holes
        = exHoles.countP (fun h => h.winner_team == none)) ∧
    ((mkGolfRound 1 exHoles).winner_team = some 1 ↔
        exHoles.countP (fun h => h.winner_team == some 2)
          < exHoles.countP (fun h => h.winner_team == some 1)) ∧
    (gdbGetPlayer (update_single_player_golf_stats exGDB 1) 1).map
        (fun q => (q.golf_rounds_played, q.golf_rounds_won, q.golf_rounds_lost,
                   q.golf_rounds_drawn))
      = some (1, 1, 0, 0) := by
  have h := C7_golf_round_results 1 exHoles exGDB 1
    ⟨1, "Gail Golfer", 0, 0, 0, 0, 0, 0, 0⟩ (by decide)
  exact ⟨⟨h.1.1, h.1.2.2⟩, h.2.1, h.2.2.2.2.trans (by decide)⟩

/-! ## C8: team discovery and rebuild -/

/-- Lookup in the insertion-ordered association list. -/
def lookupKey (k : Nat × Nat × Nat) :
    List ((Nat × Nat × Nat) × List Nat) → Option (List Nat)
  | [] => none
  | (k', l) :: rest => if k' = k then some l else lookupKey k rest

/-- The keys of the association list, in insertion order. -/
def keysOf (acc : List ((Nat × Nat × Nat) × List Nat)) : List (Nat × Nat × Nat) :=
  acc.map Prod.fst

/-- Per-side occurrence count of a canonical key over a list of games. -/
def occCount (parts : List GameParticipation) (gs : List Game)
    (k : Nat × Nat × Nat) : Nat :=
  (gs.map (fun g => (if sideTriple parts g.id 1 = some k then 1 else 0)
      + (if sideTriple parts g.id 2 = some k then 1 else 0))).sum

theorem lookup_addKey_self (k : Nat × Nat × Nat) (gid : Nat)
    (acc : List ((Nat × Nat × Nat) × List Nat)) :
    lookupKey k (addKey k gid acc)
      = some (((lookupKey k acc).getD []) ++ [gid]) := by
  induction acc with
  | nil => simp [addKey, lookupKey]
  | cons e rest ih =>
    obtain ⟨k', l⟩ := e
    by_cases h : k' = k
    · simp [addKey, lookupKey, h]
    · simp [addKey, lookupKey, h, ih]

theorem lookup_addKey_other (k k' : Nat × Nat × Nat) (gid : Nat)
    (acc : List ((Nat × Nat × Nat) × List Nat)) (h : k' ≠ k) :
    lookupKey k (addKey k' gid acc) = lookupKey k acc := by
  induction acc with
  | nil => simp [addKey, lookupKey, h]
  | cons e rest ih =>
    obtain ⟨k'', l⟩ := e
    by_cases h2 : k'' = k'
    · subst h2; simp [addKey, lookupKey, h]
    · by_cases h3 : k'' = k
      · simp [addKey, lookupKey, h2, h3, Ne.symm h]
      · simp [addKey, lookupKey, h2, h3, ih]

theorem lookup_optAddKey_len (o : Option (Nat × Nat × Nat)) (gid : Nat)
    (acc : List ((Nat × Nat × Nat) × List Nat)) (k : Nat × Nat × Nat) :
    ((lookupKey k (optAddKey o gid acc)).getD []).length
      = ((lookupKey k acc).getD []).length + (if o = some k then 1 else 0) := by
  cases o with
  | none => simp [optAddKey]
  | some k' =>
    by_cases h : k' = k
    · subst h; simp [optAddKey, lookup_addKey_self]
    · simp [optAddKey, lookup_addKey_other k k' gid acc h, h]

theorem lookup_optAddKey_isSome (o : Option (Nat × Nat × Nat)) (gid : Nat)
    (acc : List ((Nat × Nat × Nat) × List Nat)) (k : Nat × Nat × Nat) :
    (lookupKey k (optAddKey o gid acc)).isSome
      ↔ ((lookupKey k acc).isSome ∨ o = some k) := by
  cases o with
  | none => simp [optAddKey]
  | some k' =>
    by_cases h : k' = k
    · subst h; simp [optAddKey, lookup_addKey_self]
    · simp [optAddKey, lookup_addKey_other k k' gid acc h, h]

theorem analyze_fold_len (parts : List GameParticipation) (gs : List Game) :
    ∀ acc k, ((lookupKey k (gs.foldl (analyzeStep parts) acc)).getD []).length
      = ((lookupKey k acc).getD []).length + occCount parts gs k := by
  induction gs with
  | nil => intro acc k; simp [occCount]
  | cons g rest ih =>
    intro acc k
    rw [List.foldl_cons, ih]
    simp only [analyzeStep, lookup_optAddKey_len, occCount, List.map_cons,
      List.sum_cons]
    omega

theorem analyze_fold_isSome (parts : List GameParticipation) (gs : List Game) :
    ∀ acc k, (lookupKey k (gs.foldl (analyzeStep parts) acc)).isSome
      ↔ ((lookupKey k acc).isSome ∨ 0 < occCount parts gs k) := by
  induction gs with
  | nil => intro acc k; simp [occCount]
  | cons g rest ih =>
    intro acc k
    rw [List.foldl_cons, ih]
    simp only [analyzeStep, lookup_optAddKey_isSome, occCount, List.map_cons,
      List.sum_cons]
    constructor
    · rintro (((h | h) | h) | h)
      · exact Or.inl h
      · right; rw [if_pos h]; omega
      · right; rw [if_pos h]; omega
      · right; omega
    · rintro (h | h)
      · exact Or.inl (Or.inl (Or.inl h))
      · by_cases h1 : sideTriple parts g.id 1 = some k
        · exact Or.inl (Or.inl (Or.inr h1))
        · by_cases h2 : sideTriple parts g.id 2 = some k
          · exact Or.inl (Or.inr h2)
          · right
            simp only [h1, h2, if_false] at h
            omega

theorem keysOf_addKey (k : Nat × Nat × Nat) (gid : Nat)
    (acc : List ((Nat × Nat × Nat) × List Nat)) :
    keysOf (addKey k gid acc)
      = if k ∈ keysOf acc then keysOf acc else keysOf acc ++ [k] := by
  induction acc with
  | nil => simp [addKey, keysOf]
  | cons e rest ih =>
    obtain ⟨k', l⟩ := e
    by_cases h : k' = k
    · subst h
      simp [addKey, keysOf]
    · by_cases h2 : k ∈ keysOf rest
      · have hcond : k ∈ k' :: keysOf rest := List.mem_cons_of_mem _ h2
        simp only [addKey, keysOf, List.map_cons, if_neg h]
        rw [show List.map Prod.fst (addKey k gid rest)
            = keysOf (addKey k gid rest) from rfl, ih, if_pos h2]
        rw [if_pos (show k ∈ k' :: List.map Prod.fst rest from hcond)]
        rfl
      · have hcond : k ∉ k' :: keysOf rest := by
          simp [List.mem_cons, h2, (Ne.symm h : k ≠ k')]
        simp only [addKey, keysOf, List.map_cons, if_neg h]
        rw [show List.map Prod.fst (addKey k gid rest)
            = keysOf (addKey k gid rest) from rfl, ih, if_neg h2]
        rw [if_neg (show ¬ k ∈ k' :: List.map Prod.fst rest from hcond)]
        rfl

theorem keysOf_addKey_nodup (k : Nat × Nat × Nat) (gid : Nat)
    (acc : List ((Nat × Nat × Nat) × List Nat))
    (h : (keysOf acc).Nodup) : (keysOf (addKey k gid acc)).Nodup := by
  rw [keysOf_addKey]
  by_cases hm : k ∈ keysOf acc
  · rw [if_pos hm]; exact h
  · rw [if_neg hm, ← List.concat_eq_append]
    exact List.Nodup.concat hm h

theorem keysOf_optAddKey_nodup (o : Option (Nat × Nat × Nat)) (gid : Nat)
    (acc : List ((Nat × Nat × Nat) × List Nat))
    (h : (keysOf acc).Nodup) : (keysOf (optAddKey o gid acc)).Nodup := by
  cases o with
  | none => exact h
  | some k => exact keysOf_addKey_nodup k gid acc h

theorem analyze_fold_keys_nodup (parts : List GameParticipation)
    (gs : List Game) :
    ∀ acc, (keysOf acc).Nodup →
      (keysOf (gs.foldl (analyzeStep parts) acc)).Nodup := by
  induction gs with
  | nil => intro acc h; exact h
  | cons g rest ih =>
    intro acc h
    rw [List.foldl_cons]
    exact ih _ (keysOf_optAddKey_nodup _ _ _ (keysOf_optAddKey_nodup _ _ _ h))

theorem lookup_eq_of_mem (acc : List ((Nat × Nat × Nat) × List Nat))
    (hnd : (keysOf acc).Nodup) (k : Nat × Nat × Nat) (l : List Nat)
    (hm : (k, l) ∈ acc) : lookupKey k acc = some l := by
  induction acc with
  | nil => simp at hm
  | cons e rest ih =>
    obtain ⟨k', l'⟩ := e
    simp only [keysOf, List.map_cons, List.nodup_cons] at hnd
    rcases List.mem_cons.mp hm with he | hm'
    · injection he with h1 h2
      subst h1; subst h2
      simp [lookupKey]
    · have hkne : k' ≠ k := by
        intro hkk
        subst hkk
        exact hnd.1 (List.mem_map_of_mem Prod.fst hm')
      simp only [lookupKey, if_neg hkne]
      exact ih hnd.2 hm'

theorem mem_of_lookup_eq_some (acc : List ((Nat × Nat × Nat) × List Nat))
    (k : Nat × Nat × Nat) (l : List Nat)
    (h : lookupKey k acc = some l) : (k, l) ∈ acc := by
  induction acc with
  | nil => simp [lookupKey] at h
  | cons e rest ih =>
    obtain ⟨k', l'⟩ := e
    by_cases hk : k' = k
    · subst hk
      simp only [lookupKey, if_pos rfl] at h
      injection h with h
      subst h
      exact List.mem_cons_self _ _
    · simp only [lookupKey, if_neg hk] at h
      exact List.mem_cons_of_mem _ (ih h)

theorem sort3_mem (a b c : Nat) :
    ((sort3 a b c).1 = a ∨ (sort3 a b c).1 = b ∨ (sort3 a b c).1 = c) ∧
    ((sort3 a b c).2.1 = a ∨ (sort3 a b c).2.1 = b ∨ (sort3 a b c).2.1 = c) ∧
    ((sort3 a b c).2.2 = a ∨ (sort3 a b c).2.2 = b ∨ (sort3 a b c).2.2 = c) := by
  simp only [sort3]
  by_cases h1 : a ≤ b <;> by_cases h2 : b ≤ c <;> by_cases h3 : a ≤ c <;>
    simp [h1, h2, h3]

theorem sideTriple_players (parts : List GameParticipation) (gid tn : Nat)
    (k : Nat × Nat × Nat) (h : sideTriple parts gid tn = some k) :
    (∃ p ∈ parts, p.player_id = k.1) ∧ (∃ p ∈ parts, p.player_id = k.2.1) ∧
    (∃ p ∈ parts, p.player_id = k.2.2) := by
  simp only [sideTriple] at h
  rcases hf : parts.filter (fun p => p.game_id == gid && p.team_number == tn)
    with _ | ⟨p1, rest1⟩
  · rw [hf] at h; cases h
  rcases rest1 with _ | ⟨p2, rest2⟩
  · rw [hf] at h; cases h
  rcases rest2 with _ | ⟨p3, rest3⟩
  · rw [hf] at h; cases h
  rcases rest3 with _ | ⟨p4, rest4⟩
  case cons.cons.cons.cons => rw [hf] at h; cases h
  rw [hf] at h
  have hk : sort3 p1.player_id p2.player_id p3.player_id = k := by
    injection h
  have hm1 : p1 ∈ parts := by
    have hmem : p1 ∈ parts.filter (fun p => p.game_id == gid && p.team_number == tn) := by
      rw [hf]; exact List.mem_cons_self _ _
    exact (List.mem_filter.mp hmem).1
  have hm2 : p2 ∈ parts := by
    have hmem : p2 ∈ parts.filter (fun p => p.game_id == gid && p.team_number == tn) := by
      rw [hf]; exact List.mem_cons_of_mem _ (List.mem_cons_self _ _)
    exact (List.mem_filter.mp hmem).1
  have hm3 : p3 ∈ parts := by
    have hmem : p3 ∈ parts.filter (fun p => p.game_id == gid && p.team_number == tn) := by
      rw [hf]
      exact List.mem_cons_of_mem _ (List.mem_cons_of_mem _ (List.mem_cons_self _ _))
    exact (List.mem_filter.mp hmem).1
  obtain ⟨hs1, hs2, hs3⟩ := sort3_mem p1.player_id p2.player_id p3.player_id
  subst hk
  refine ⟨?_, ?_, ?_⟩
  · rcases hs1 with h' | h' | h'
    · exact ⟨p1, hm1, h'.symm⟩
    · exact ⟨p2, hm2, h'.symm⟩
    · exact ⟨p3, hm3, h'.symm⟩
  · rcases hs2 with h' | h' | h'
    · exact ⟨p1, hm1, h'.symm⟩
    · exact ⟨p2, hm2, h'.symm⟩
    · exact ⟨p3, hm3, h'.symm⟩
  · rcases hs3 with h' | h' | h'
    · exact ⟨p1, hm1, h'.symm⟩
    · exact ⟨p2, hm2, h'.symm⟩
    · exact ⟨p3, hm3, h'.symm⟩

theorem occCount_eq_filter (parts : List GameParticipation) (gs : List Game)
    (hdisj : ∀ g ∈ gs, sideTriple parts g.id 1 = none
        ∨ sideTriple parts g.id 1 ≠ sideTriple parts g.id 2)
    (k : Nat × Nat × Nat) :
    occCount parts gs k
      = (gs.filter (fun g => sideTriple parts g.id 1 == some k
          || sideTriple parts g.id 2 == some k)).length := by
  induction gs with
  | nil => simp [occCount]
  | cons g rest ih =>
    have hg := hdisj g (List.mem_cons_self g rest)
    have ih' := ih (fun g' h' => hdisj g' (List.mem_cons_of_mem _ h'))
    have hocc : occCount parts (g :: rest) k
        = ((if sideTriple parts g.id 1 = some k then 1 else 0)
            + (if sideTriple parts g.id 2 = some k then 1 else 0))
          + occCount parts rest k := by
      simp [occCount]
    rw [hocc, ih', List.filter_cons]
    by_cases h1 : sideTriple parts g.id 1 = some k <;>
      by_cases h2 : sideTriple parts g.id 2 = some k
    · exfalso
      rcases hg with hn | hne
      · rw [hn] at h1; cases h1
      · exact hne (h1.trans h2.symm)
    · rw [if_pos h1, if_neg h2,
        if_pos (show (sideTriple parts g.id 1 == some k
          || sideTriple parts g.id 2 == some k) = true by simp [h1])]
      simp [List.length_cons]
      omega
    · rw [if_neg h1, if_pos h2,
        if_pos (show (sideTriple parts g.id 1 == some k
          || sideTriple parts g.id 2 == some k) = true by simp [h2])]
      simp [List.length_cons]
      omega
    · rw [if_neg h1, if_neg h2,
        if_neg (show ¬ (sideTriple parts g.id 1 == some k
          || sideTriple parts g.id 2 == some k) = true by simp [h1, h2])]
      omega

theorem create_team_lt3 (db : DB) (key : Nat × Nat × Nat) (gids : List Nat)
    (h : gids.length < 3) :
    create_or_update_team db key gids = .ok (none, db) := by
  simp only [create_or_update_team]
  rw [if_pos h]

theorem create_team_new (db : DB) (a b c : Nat) (gids : List Nat)
    (h3 : ¬ gids.length < 3)
    (hnone : ∀ t ∈ db.teams, keyOf t ≠ (a, b, c))
    (pl1 pl2 pl3 : Player)
    (h1 : dbGetPlayer db a = some pl1) (h2 : dbGetPlayer db b = some pl2)
    (hp3 : dbGetPlayer db c = some pl3) :
    ∃ t, create_or_update_team db (a, b, c) gids
        = .ok (some t, { db with teams := db.teams ++ [t] })
      ∧ keyOf t = (a, b, c) ∧ t.games_played = gids.length := by
  have hfind : db.teams.find? (fun t =>
      t.player1_id == a && t.player2_id == b && t.player3_id == c) = none := by
    rw [List.find?_eq_none]
    intro t ht hpred
    simp only [Bool.and_eq_true, beq_iff_eq] at hpred
    exact hnone t ht (by simp [keyOf, hpred.1.1, hpred.1.2, hpred.2])
  simp only [create_or_update_team, h1, h2, hp3, hfind]
  rw [if_neg h3]
  exact ⟨_, rfl, rfl, rfl⟩

theorem rebuild_fold_spec :
    ∀ (es : List ((Nat × Nat × Nat) × List Nat)) (ts : List Team) (dbc : DB),
      (es.map Prod.fst).Nodup →
      (∀ t ∈ dbc.teams, ∀ e ∈ es, keyOf t ≠ e.1) →
      (∀ e ∈ es, (dbGetPlayer dbc e.1.1).isSome
        ∧ (dbGetPlayer dbc e.1.2.1).isSome
        ∧ (dbGetPlayer dbc e.1.2.2).isSome) →
      ∃ newTeams db',
        es.foldlM rebuildStep (ts, dbc) = .ok (ts ++ newTeams, db') ∧
        db'.players = dbc.players ∧ db'.games = dbc.games ∧
        db'.participations = dbc.participations ∧
        db'.teams = dbc.teams ++ newTeams ∧
        (∀ t ∈ newTeams, ∃ e ∈ es, keyOf t = e.1 ∧ t.games_played = e.2.length
            ∧ 3 ≤ e.2.length) ∧
        (∀ e ∈ es, 3 ≤ e.2.length →
            ∃ t ∈ newTeams, keyOf t = e.1 ∧ t.games_played = e.2.length) ∧
        (newTeams.map keyOf).Nodup := by
  intro es
  induction es with
  | nil =>
    intro ts dbc _ _ _
    exact ⟨[], dbc, by rw [List.append_nil]; rfl, rfl, rfl, rfl, by simp,
      by simp, by simp, by simp⟩
  | cons e rest ih =>
    intro ts dbc hkeys hteams hplayers
    obtain ⟨⟨a, b, c⟩, gids⟩ := e
    simp only [List.map_cons, List.nodup_cons] at hkeys
    by_cases hlt : gids.length < 3
    · have hstep : rebuildStep (ts, dbc) ((a, b, c), gids) = .ok (ts, dbc) := by
        simp only [rebuildStep, create_team_lt3 dbc (a, b, c) gids hlt]
        rfl
      obtain ⟨newTeams, db', heq', hp, hg, hpar, hteq, hc1, hc2, hnd⟩ :=
        ih ts dbc hkeys.2
          (fun t ht e' he' => hteams t ht e' (List.mem_cons_of_mem _ he'))
          (fun e' he' => hplayers e' (List.mem_cons_of_mem _ he'))
      refine ⟨newTeams, db', ?_, hp, hg, hpar, hteq, ?_, ?_, hnd⟩
      · rw [List.foldlM_cons, hstep]
        show rest.foldlM rebuildStep (ts, dbc) = _
        exact heq'
      · intro t ht
        obtain ⟨e', he', h1, h2, h3⟩ := hc1 t ht
        exact ⟨e', List.mem_cons_of_mem _ he', h1, h2, h3⟩
      · intro e' he' hlen
        rcases List.mem_cons.mp he' with he'' | he''
        · exfalso
          rw [he''] at hlen
          exact hlt.not_le (by simpa using hlen)
        · exact hc2 e' he'' hlen
    · have hpl := hplayers ((a, b, c), gids) (List.mem_cons_self _ _)
      obtain ⟨pl1, hpl1⟩ := Option.isSome_iff_exists.mp hpl.1
      obtain ⟨pl2, hpl2⟩ := Option.isSome_iff_exists.mp hpl.2.1
      obtain ⟨pl3, hpl3⟩ := Option.isSome_iff_exists.mp hpl.2.2
      obtain ⟨t0, heq0, hkey0, hgames0⟩ := create_team_new dbc a b c gids hlt
        (fun t ht => hteams t ht ((a, b, c), gids) (List.mem_cons_self _ _))
        pl1 pl2 pl3 hpl1 hpl2 hpl3
      have hstep : rebuildStep (ts, dbc) ((a, b, c), gids)
          = .ok (ts ++ [t0], { dbc with teams := dbc.teams ++ [t0] }) := by
        simp only [rebuildStep, heq0]
        rfl
      obtain ⟨newTeams', db', heq', hp, hg, hpar, hteq, hc1, hc2, hnd⟩ :=
        ih (ts ++ [t0]) { dbc with teams := dbc.teams ++ [t0] } hkeys.2
          (by
            intro t ht e' he'
            rcases List.mem_append.mp ht with hold | hnew
            · exact hteams t hold e' (List.mem_cons_of_mem _ he')
            · have ht0 : t = t0 := by simpa using hnew
              rw [ht0, hkey0]
              intro hcontra
              exact hkeys.1 (hcontra ▸ List.mem_map_of_mem Prod.fst he'))
          (fun e' he' => hplayers e' (List.mem_cons_of_mem _ he'))
      refine ⟨t0 :: newTeams', db', ?_, hp, hg, hpar, ?_, ?_, ?_, ?_⟩
      · rw [List.foldlM_cons, hstep]
        show rest.foldlM rebuildStep
            (ts ++ [t0], { dbc with teams := dbc.teams ++ [t0] }) = _
        rw [heq', List.append_assoc]
        rfl
      · rw [hteq]
        show (dbc.teams ++ [t0]) ++ newTeams' = _
        rw [List.append_assoc]
        rfl
      · intro t ht
        rcases List.mem_cons.mp ht with ht0 | htn
        · exact ⟨((a, b, c), gids), List.mem_cons_self _ _,
            ht0 ▸ hkey0, ht0 ▸ hgames0, Nat.le_of_not_lt hlt⟩
        · obtain ⟨e', he', h1, h2, h3⟩ := hc1 t htn
          exact ⟨e', List.mem_cons_of_mem _ he', h1, h2, h3⟩
      · intro e' he' hlen
        rcases List.mem_cons.mp he' with he'' | he''
        · exact ⟨t0, List.mem_cons_self _ _, he'' ▸ hkey0, he'' ▸ hgames0⟩
        · obtain ⟨t', ht', h1, h2⟩ := hc2 e' he'' hlen
          exact ⟨t', List.mem_cons_of_mem _ ht', h1, h2⟩
      · rw [List.map_cons, List.nodup_cons]
        constructor
        · intro hcontra
          rcases List.mem_map.mp hcontra with ⟨t', ht', hkt⟩
          obtain ⟨e', he', h1, _, _⟩ := hc1 t' ht'
          rw [hkey0] at hkt
          rw [hkt] at h1
          exact hkeys.1 (h1 ▸ List.mem_map_of_mem Prod.fst he')
        · exact hnd

theorem occCount_pos_exists (parts : List GameParticipation) (gs : List Game)
    (k : Nat × Nat × Nat) (h : 0 < occCount parts gs k) :
    ∃ g ∈ gs, sideTriple parts g.id 1 = some k
      ∨ sideTriple parts g.id 2 = some k := by
  induction gs with
  | nil => simp [occCount] at h
  | cons g rest ih =>
    by_cases h1 : sideTriple parts g.id 1 = some k
    · exact ⟨g, List.mem_cons_self g rest, Or.inl h1⟩
    by_cases h2 : sideTriple parts g.id 2 = some k
    · exact ⟨g, List.mem_cons_self g rest, Or.inr h2⟩
    have hrest : 0 < occCount parts rest k := by
      simp only [occCount, List.map_cons, List.sum_cons, if_neg h1, if_neg h2]
        at h
      simpa [occCount] using h
    obtain ⟨g', hg', hor⟩ := ih hrest
    exact ⟨g', List.mem_cons_of_mem _ hg', hor⟩

theorem filter_key_eq_singleton (l : List Team) (k : Nat × Nat × Nat)
    (hnodup : (l.map keyOf).Nodup) (t : Team) (ht : t ∈ l) (hk : keyOf t = k) :
    l.filter (fun t' => keyOf t' == k) = [t] := by
  induction l with
  | nil => simp at ht
  | cons a rest ih =>
    simp only [List.map_cons, List.nodup_cons] at hnodup
    rcases List.mem_cons.mp ht with rfl | hmem
    · rw [List.filter_cons_of_pos (by simp [hk])]
      have hnil : rest.filter (fun t' => keyOf t' == k) = [] := by
        rw [List.filter_eq_nil_iff]
        intro t' ht'
        have hne : keyOf t' ≠ k := by
          intro he
          exact hnodup.1 (hk ▸ he ▸ List.mem_map_of_mem keyOf ht')
        simp [hne]
      rw [hnil]
    · have hak : keyOf a ≠ k := by
        intro he
        exact hnodup.1 (he ▸ (hk ▸ List.mem_map_of_mem keyOf hmem))
      rw [List.filter_cons_of_neg (by simp [hak])]
      exact ih hnodup.2 hmem

/-- C8: `rebuild_all_teams` clears the Team table and regenerates it from
game history alone — afterwards there is exactly one Team row per
canonical triple that occurs as a full side in at least 3 games, carrying
`games_played` equal to that number of games, and no row for any triple
below the threshold. -/
theorem C8_rebuild_characterization (db : DB)
    (hply : ∀ p ∈ db.participations, (dbGetPlayer db p.player_id).isSome)
    (hdisj : ∀ g ∈ db.games, sideTriple db.participations g.id 1 = none
        ∨ sideTriple db.participations g.id 1 ≠ sideTriple db.participations g.id 2) :
    match rebuild_all_teams db with
    | .ok r =>
        (∀ k, 3 ≤ specGameCount db k →
          (r.2.teams.filter (fun t => keyOf t == k)).map Team.games_played
            = [specGameCount db k]) ∧
        (∀ k, specGameCount db k < 3 →
          r.2.teams.filter (fun t => keyOf t == k) = []) ∧
        (∀ t ∈ r.2.teams, 3 ≤ specGameCount db (keyOf t))
    | .error _ => False := by
  have hspec : ∀ k, occCount db.participations db.games k = specGameCount db k :=
    fun k => occCount_eq_filter db.participations db.games hdisj k
  have hkeysnd : (keysOf (db.games.foldl (analyzeStep db.participations) [])).Nodup :=
    analyze_fold_keys_nodup db.participations db.games [] (by simp [keysOf])
  have hlen : ∀ k l, (k, l) ∈ db.games.foldl (analyzeStep db.participations) [] →
      l.length = occCount db.participations db.games k := by
    intro k l hm
    have hlk := lookup_eq_of_mem _ hkeysnd k l hm
    have hfold := analyze_fold_len db.participations db.games [] k
    rw [hlk] at hfold
    simpa [lookupKey] using hfold
  have hmemk : ∀ k, 0 < occCount db.participations db.games k →
      ∃ l, (k, l) ∈ db.games.foldl (analyzeStep db.participations) [] := by
    intro k hpos
    have hs := (analyze_fold_isSome db.participations db.games [] k).mpr
      (Or.inr hpos)
    obtain ⟨l, hl⟩ := Option.isSome_iff_exists.mp hs
    exact ⟨l, mem_of_lookup_eq_some _ k l hl⟩
  have hpl : ∀ e ∈ db.games.foldl (analyzeStep db.participations) [],
      (dbGetPlayer db e.1.1).isSome ∧ (dbGetPlayer db e.1.2.1).isSome
        ∧ (dbGetPlayer db e.1.2.2).isSome := by
    intro e he
    have hlk := lookup_eq_of_mem _ hkeysnd e.1 e.2 he
    have hs : (lookupKey e.1
        (db.games.foldl (analyzeStep db.participations) [])).isSome := by
      rw [hlk]; rfl
    have hpos : 0 < occCount db.participations db.games e.1 := by
      rcases (analyze_fold_isSome db.participations db.games [] e.1).mp hs with
        hc | hc
      · simp [lookupKey] at hc
      · exact hc
    obtain ⟨g, _, hor⟩ := occCount_pos_exists db.participations db.games e.1 hpos
    have hexists : (∃ p ∈ db.participations, p.player_id = e.1.1)
        ∧ (∃ p ∈ db.participations, p.player_id = e.1.2.1)
        ∧ (∃ p ∈ db.participations, p.player_id = e.1.2.2) := by
      rcases hor with hside | hside
      · exact sideTriple_players db.participations g.id 1 e.1 hside
      · exact sideTriple_players db.participations g.id 2 e.1 hside
    obtain ⟨⟨p1, hp1, hpe1⟩, ⟨p2, hp2, hpe2⟩, ⟨p3, hp3, hpe3⟩⟩ := hexists
    exact ⟨hpe1 ▸ hply p1 hp1, hpe2 ▸ hply p2 hp2, hpe3 ▸ hply p3 hp3⟩
  obtain ⟨newTeams, db', heq, hp, hg, hpar, hteq, hc1, hc2, hnd⟩ :=
    rebuild_fold_spec (db.games.foldl (analyzeStep db.participations) [])
      [] (DB.mk db.players db.games db.participations [])
      hkeysnd (by intro t ht; simp at ht) hpl
  have hrba : rebuild_all_teams db
      = (db.games.foldl (analyzeStep db.participations) []).foldlM rebuildStep
          ([], DB.mk db.players db.games db.participations []) := rfl
  rw [hrba, heq]
  show (∀ k, 3 ≤ specGameCount db k →
      (db'.teams.filter (fun t => keyOf t == k)).map Team.games_played
        = [specGameCount db k]) ∧
    (∀ k, specGameCount db k < 3 →
      db'.teams.filter (fun t => keyOf t == k) = []) ∧
    (∀ t ∈ db'.teams, 3 ≤ specGameCount db (keyOf t))
  have hteams' : db'.teams = newTeams := by
    rw [hteq]; rfl
  refine ⟨?_, ?_, ?_⟩
  · intro k hk3
    have hpos : 0 < occCount db.participations db.games k := by
      rw [hspec k]; omega
    obtain ⟨l, hml⟩ := hmemk k hpos
    have hlenl : l.length = specGameCount db k := by
      rw [hlen k l hml, hspec k]
    obtain ⟨t, htm, htk, htg⟩ := hc2 (k, l) hml (by rw [hlenl]; exact hk3)
    rw [hteams', filter_key_eq_singleton newTeams k hnd t htm htk]
    simp [htg, hlenl]
  · intro k hklt
    rw [hteams', List.filter_eq_nil_iff]
    intro t htm
    obtain ⟨e, hem, hke, hge, h3e⟩ := hc1 t htm
    intro hcontra
    have hkk : keyOf t = k := by simpa using hcontra
    rw [hkk] at hke
    rw [hlen e.1 e.2 hem, hspec e.1, ← hke] at h3e
    omega
  · intro t htm
    rw [hteams'] at htm
    obtain ⟨e, hem, hke, hge, h3e⟩ := hc1 t htm
    rw [hke]
    rw [hlen e.1 e.2 hem, hspec e.1] at h3e
    exact h3e

def exRB8 : List Team × DB := (rebuild_all_teams exDB2).toOption.getD ([], ⟨[], [], [], []⟩)

theorem C8_witness :
    (∀ p ∈ exDB2.participations, (dbGetPlayer exDB2 p.player_id).isSome)
    ∧ (∀ g ∈ exDB2.games, sideTriple exDB2.participations g.id 1 = none
        ∨ sideTriple exDB2.participations g.id 1
            ≠ sideTriple exDB2.participations g.id 2)
    ∧ 3 ≤ specGameCount exDB2 (1, 2, 3)
    ∧ (exRB8.2.teams.filter (fun t => keyOf t == (1, 2, 3))).map Team.games_played
        = [specGameCount exDB2 (1, 2, 3)]
    ∧ specGameCount exDB2 (7, 8, 9) < 3
    ∧ exRB8.2.teams.filter (fun t => keyOf t == (7, 8, 9)) = [] := by
  have h := C8_rebuild_characterization exDB2 (by decide) (by decide)
  rw [show rebuild_all_teams exDB2 = .ok exRB8 from rfl] at h
  exact ⟨by decide, by decide, by decide, h.1 (1, 2, 3) (by decide),
    by decide, h.2.1 (7, 8, 9) (by decide)⟩

/-! ## C9: season scoping of statistics and omission of empty histories -/

/-- Spec-side lookup: the game with this id, kept only when it was played
in calendar year `y`. -/
def yearLookup (games : List Game) (y : Nat) (gid : Nat) : Option Game :=
  (gamesGet games gid).bind (fun g => if g.played_year == y then some g else none)

/-- Spec-side season statistics: the player's participation history
restricted to rows whose parent game was played in year `y`, handed to
the recalculator formulas. -/
def specSeasonStats (db : DB) (y : Nat) (pid : Nat) : PlayerStatsVals :=
  let ps := playerParts db pid
  { games_played := (resolvedWith (yearLookup db.games y) ps).length,
    games_won := wonCountW (yearLookup db.games y) ps,
    win_percentage :=
      if (resolvedWith (yearLookup db.games y) ps).length > 0 then
        (wonCountW (yearLookup db.games y) ps : ℚ)
          / ((resolvedWith (yearLookup db.games y) ps).length : ℚ) * 100
      else 0,
    avg_win_margin := listMean (wonMarginsW (yearLookup db.games y) ps),
    avg_loss_margin := listMean (lossMarginsW (yearLookup db.games y) ps),
    total_points_scored := ownSumW (yearLookup db.games y) ps,
    total_points_against := oppSumW (yearLookup db.games y) ps }

/-- The `TeamOut` row built by the season branch of `teams.list_teams`. -/
def mkTeamEntry (team : Team) (st : PlayerStatsVals) : TeamOutEntry :=
  { id := team.id, player1_id := team.player1_id, player2_id := team.player2_id,
    player3_id := team.player3_id, team_name := team.team_name,
    games_played := st.games_played, games_won := st.games_won,
    total_points_scored := st.total_points_scored,
    total_points_against := st.total_points_against,
    win_percentage := st.win_percentage,
    avg_win_margin := st.avg_win_margin,
    avg_loss_margin := st.avg_loss_margin }

theorem strToNat_ne_empty (s : String) (y : Nat) (hy : strToNat s = some y) :
    (s == "") = false := by
  cases hb : s == "" with
  | false => rfl
  | true =>
    exfalso
    have hs : s = "" := by simpa using hb
    rw [hs, show strToNat "" = none from rfl] at hy
    exact Option.noConfusion hy

theorem strToNat_ne_all (s : String) (y : Nat) (hy : strToNat s = some y) :
    (s == "all") = false := by
  cases hb : s == "all" with
  | false => rfl
  | true =>
    exfalso
    have hs : s = "all" := by simpa using hb
    rw [hs, show strToNat "all" = none from rfl] at hy
    exact Option.noConfusion hy

theorem season_cond_true (s : String) (y : Nat) (hy : strToNat s = some y) :
    (!(s == "") && !(s == "all")) = true := by
  rw [strToNat_ne_empty s y hy, strToNat_ne_all s y hy]
  rfl

theorem seasonActive_of_year (s : String) (y : Nat) (hy : strToNat s = some y) :
    seasonActive (some s) = true :=
  season_cond_true s y hy

theorem find?_id_bind (games : List Game) (P : Game → Bool) (gid : Nat)
    (hnodup : (games.map (fun g => g.id)).Nodup) :
    (games.filter P).find? (fun g => g.id == gid)
      = (games.find? (fun g => g.id == gid)).bind
          (fun g => if P g then some g else none) := by
  induction games with
  | nil => simp
  | cons g rest ih =>
    simp only [List.map_cons, List.nodup_cons] at hnodup
    by_cases hid : g.id = gid
    · cases hP : P g with
      | false =>
        rw [List.filter_cons_of_neg (by simp [hP])]
        rw [List.find?_cons_of_pos _ (by simp [hid])]
        have hnone : (rest.filter P).find? (fun g' => g'.id == gid) = none := by
          rw [List.find?_eq_none]
          intro x hx hxe
          have hx' : x ∈ rest := List.mem_of_mem_filter hx
          have hxg : x.id = gid := by simpa using hxe
          exact hnodup.1 (show g.id ∈ rest.map (fun g' => g'.id) by
            rw [hid, ← hxg]; exact List.mem_map_of_mem _ hx')
        simp [hnone, hP]
      | true =>
        rw [List.filter_cons_of_pos (by simp [hP])]
        rw [List.find?_cons_of_pos _ (by simp [hid]),
          List.find?_cons_of_pos _ (by simp [hid])]
        simp [hP]
    · cases hP : P g with
      | false =>
        rw [List.filter_cons_of_neg (by simp [hP]),
          List.find?_cons_of_neg _ (by simp [hid])]
        exact ih hnodup.2
      | true =>
        rw [List.filter_cons_of_pos (by simp [hP]),
          List.find?_cons_of_neg _ (by simp [hid]),
          List.find?_cons_of_neg _ (by simp [hid])]
        exact ih hnodup.2

theorem dictGet_filter_bind (games : List Game) (P : Game → Bool) (gid : Nat)
    (hnodup : (games.map (fun g => g.id)).Nodup) :
    dictGetGame (games.filter P) gid
      = (gamesGet games gid).bind (fun g => if P g then some g else none) := by
  have huniq : ∀ a ∈ games.filter P, ∀ b ∈ games.filter P,
      (a.id == gid) = true → (b.id == gid) = true → a = b := by
    intro a ha b hb hpa hpb
    have ha' : a ∈ games := List.mem_of_mem_filter ha
    have hb' : b ∈ games := List.mem_of_mem_filter hb
    have hab : a.id = b.id := by
      have h1 : a.id = gid := by simpa using hpa
      have h2 : b.id = gid := by simpa using hpb
      rw [h1, h2]
    exact List.inj_on_of_nodup_map hnodup ha' hb' hab
  rw [dictGetGame, find?_reverse_of_uniq _ _ huniq]
  exact find?_id_bind games P gid hnodup

theorem dict_season_lookup (games : List Game) (gids : List Nat) (s : String)
    (y : Nat) (hy : strToNat s = some y)
    (hnodup : (games.map (fun g => g.id)).Nodup)
    (gid : Nat) (hmem : gid ∈ gids) :
    dictGetGame ((games.filter (fun g => gids.contains g.id)).filter
        (fun g => inSeasonYear g s)) gid
      = yearLookup games y gid := by
  rw [List.filter_filter, dictGet_filter_bind _ _ _ hnodup, yearLookup]
  cases hf : gamesGet games gid with
  | none => rfl
  | some g =>
    have hgid : g.id = gid := by
      have := List.find?_some hf
      simpa using this
    have hcont : gids.contains g.id = true := by
      rw [hgid]
      simpa using hmem
    have hcond2 : (inSeasonYear g s && gids.contains g.id) = (g.played_year == y) := by
      rw [hcont, Bool.and_true, inSeasonYear, hy]
      by_cases hgy : g.played_year = y
      · simp [hgy]
      · simp [hgy]
    simp only [Option.some_bind, hcond2]

theorem compute_season_eq_spec (db : DB) (player : Player) (s : String) (y : Nat)
    (hy : strToNat s = some y) (hnodup : (db.games.map (fun g => g.id)).Nodup) :
    compute_player_season_stats db player (some s) = specSeasonStats db y player.id := by
  have hcond := season_cond_true s y hy
  by_cases hemp : db.participations.filter (fun p => p.player_id == player.id) = []
  · simp [compute_player_season_stats, hemp, specSeasonStats, playerParts,
      resolvedWith, wonCountW, wonMarginsW, lossMarginsW, ownSumW, oppSumW,
      listMean, zeroStats]
  · have hlist : ∀ p ∈ db.participations.filter (fun q => q.player_id == player.id),
        dictGetGame ((db.games.filter (fun g =>
            ((db.participations.filter (fun q => q.player_id == player.id)).map
              (fun q => q.game_id)).contains g.id)).filter
            (fun g => inSeasonYear g s)) p.game_id
          = yearLookup db.games y p.game_id := by
      intro p hp
      exact dict_season_lookup db.games _ s y hy hnodup p.game_id
        (List.mem_map_of_mem _ hp)
    have hres := resolvedWith_congr _ _
      (db.participations.filter (fun q => q.player_id == player.id)) hlist
    have hne : ((db.participations.filter
        (fun q => q.player_id == player.id)).map (fun q => q.game_id)).isEmpty
        = false := by
      rcases hpp : db.participations.filter (fun q => q.player_id == player.id)
        with _ | ⟨a, l⟩
      · exact absurd hpp hemp
      · rw [hpp]
        rfl
    simp only [compute_player_season_stats, hne, Bool.false_eq_true, if_false,
      hcond, if_true, seasonStatsLoop_spec, specSeasonStats, playerParts]
    simp only [wonCountW, wonMarginsW, lossMarginsW, ownSumW, oppSumW, hres,
      listMean]

theorem mem_insertEntry (e x : PlayerStatsEntry) (l : List PlayerStatsEntry) :
    x ∈ insertEntry e l ↔ x = e ∨ x ∈ l := by
  induction l with
  | nil => simp [insertEntry]
  | cons a as ih =>
    cases hle : leaderboardLE e a with
    | true => simp [insertEntry, hle]
    | false =>
      simp only [insertEntry, hle, Bool.false_eq_true, if_false, List.mem_cons, ih]
      tauto

theorem mem_sortEntries (l : List PlayerStatsEntry) (x : PlayerStatsEntry) :
    x ∈ sortEntries l ↔ x ∈ l := by
  induction l with
  | nil => simp [sortEntries]
  | cons a as ih =>
    show x ∈ insertEntry a (sortEntries as) ↔ _
    rw [mem_insertEntry]
    simp [ih]

theorem mem_insertTeamEntry (e x : TeamOutEntry) (l : List TeamOutEntry) :
    x ∈ insertTeamEntry e l ↔ x = e ∨ x ∈ l := by
  induction l with
  | nil => simp [insertTeamEntry]
  | cons a as ih =>
    cases hle : teamSortLE e a with
    | true => simp [insertTeamEntry, hle]
    | false =>
      simp only [insertTeamEntry, hle, Bool.false_eq_true, if_false,
        List.mem_cons, ih]
      tauto

theorem mem_sortTeamEntries (l : List TeamOutEntry) (x : TeamOutEntry) :
    x ∈ sortTeamEntries l ↔ x ∈ l := by
  induction l with
  | nil => simp [sortTeamEntries]
  | cons a as ih =>
    show x ∈ insertTeamEntry a (sortTeamEntries as) ↔ _
    rw [mem_insertTeamEntry]
    simp [ih]

theorem mem_insertByYearDesc (e x : Game) (l : List Game) :
    x ∈ insertByYearDesc e l ↔ x = e ∨ x ∈ l := by
  induction l with
  | nil => simp [insertByYearDesc]
  | cons a as ih =>
    by_cases hle : e.played_year ≥ a.played_year
    · simp [insertByYearDesc, hle]
    · simp only [insertByYearDesc, hle, if_false, List.mem_cons, ih]
      tauto

theorem mem_sortByYearDesc (l : List Game) (x : Game) :
    x ∈ sortByYearDesc l ↔ x ∈ l := by
  induction l with
  | nil => simp [sortByYearDesc]
  | cons a as ih =>
    show x ∈ insertByYearDesc a (sortByYearDesc as) ↔ _
    rw [mem_insertByYearDesc]
    simp [ih]

theorem leaderboard_mem_season (db : DB) (s : String) (y : Nat)
    (hy : strToNat s = some y) (hnodup : (db.games.map (fun g => g.id)).Nodup)
    (e : PlayerStatsEntry) :
    e ∈ get_leaderboard db (some s) ↔
      ∃ p ∈ db.players, (specSeasonStats db y p.id).games_played ≠ 0
        ∧ e = mkEntry p (specSeasonStats db y p.id) := by
  have hact : seasonActive (some s) = true := seasonActive_of_year s y hy
  have hcs : ∀ pl : Player,
      compute_player_season_stats db pl (some s) = specSeasonStats db y pl.id :=
    fun pl => compute_season_eq_spec db pl s y hy hnodup
  show e ∈ sortEntries _ ↔ _
  rw [mem_sortEntries, List.mem_filterMap]
  constructor
  · rintro ⟨p, hp, hfp⟩
    simp only [hact, if_true, hcs p, Bool.and_true] at hfp
    cases hgp : (specSeasonStats db y p.id).games_played == 0 with
    | true =>
      rw [hgp] at hfp
      exact absurd hfp (by simp)
    | false =>
      rw [hgp] at hfp
      simp only [Bool.false_eq_true, if_false, Option.some.injEq] at hfp
      refine ⟨p, hp, ?_, hfp.symm⟩
      intro hz
      rw [hz] at hgp
      simp at hgp
  · rintro ⟨p, hp, hne, rfl⟩
    refine ⟨p, hp, ?_⟩
    have hgp : ((specSeasonStats db y p.id).games_played == 0) = false := by
      simpa using hne
    simp only [hact, if_true, hcs p, Bool.and_true, hgp, Bool.false_eq_true,
      if_false]

theorem get_team_games_year (db : DB) (t : Team) (s : String) (y : Nat)
    (hy : strToNat s = some y) :
    ∀ gn ∈ get_team_games db t (some s), gn.1.played_year = y := by
  intro gn hgn
  have hcond := season_cond_true s y hy
  simp only [get_team_games, hcond, if_true, List.mem_filterMap] at hgn
  obtain ⟨g, hg, hfg⟩ := hgn
  have hgn1 : gn.1 = g := by
    rcases hhead : (db.participations.filter (fun p =>
        p.game_id == g.id
          && [t.player1_id, t.player2_id, t.player3_id].contains p.player_id)).head?
      with _ | p0
    · rw [hhead] at hfg
      exact absurd hfg (by simp)
    · rw [hhead] at hfg
      simp only at hfg
      cases hcb : ((db.participations.filter (fun p =>
          p.game_id == g.id
            && [t.player1_id, t.player2_id, t.player3_id].contains p.player_id)).length == 3
          && ((db.participations.filter (fun p =>
            p.game_id == g.id
              && [t.player1_id, t.player2_id, t.player3_id].contains p.player_id)).map
            (fun p => p.team_number)).dedup.length == 1) with
      | false =>
        rw [hcb] at hfg
        exact absurd hfg (by simp)
      | true =>
        rw [hcb] at hfg
        simp only [if_true, Option.some.injEq] at hfg
        rw [← hfg]
  rw [mem_sortByYearDesc] at hg
  have hg2 := List.mem_filter.mp hg
  have hseason : inSeasonYear g s = true := hg2.2
  rw [inSeasonYear, hy] at hseason
  rw [hgn1]
  simpa using hseason

theorem compute_team_len (db : DB) (t : Team) (season : Option String) :
    (compute_team_season_stats db t season).games_played
      = (get_team_games db t season).length := by
  show (teamStatsLoop (get_team_games db t season)).1 = _
  exact teamStatsLoop_games_played _

theorem list_teams_mem (db : DB) (season : Option String) (e : TeamOutEntry) :
    e ∈ list_teams_season db season ↔
      ∃ t ∈ db.teams, (compute_team_season_stats db t season).games_played ≠ 0
        ∧ e = mkTeamEntry t (compute_team_season_stats db t season) := by
  show e ∈ sortTeamEntries _ ↔ _
  rw [mem_sortTeamEntries, List.mem_filterMap]
  constructor
  · rintro ⟨t, ht, hft⟩
    simp only at hft
    cases hgp : (compute_team_season_stats db t season).games_played == 0 with
    | true =>
      rw [hgp] at hft
      exact absurd hft (by simp)
    | false =>
      rw [hgp] at hft
      simp only [Bool.false_eq_true, if_false, Option.some.injEq] at hft
      refine ⟨t, ht, ?_, ?_⟩
      · intro hz
        rw [hz] at hgp
        simp at hgp
      · rw [← hft]
        rfl
  · rintro ⟨t, ht, hne, rfl⟩
    refine ⟨t, ht, ?_⟩
    have hgp : ((compute_team_season_stats db t season).games_played == 0) = false := by
      simpa using hne
    simp only [hgp, Bool.false_eq_true, if_false]
    rfl

/-- C9: for a numeric season-year filter, the season-scoped player
statistics are computed only over participations whose parent game was
played in that calendar year (they equal the spec-side `specSeasonStats`
over the year-restricted history); the leaderboard lists exactly the
players with a non-empty season history, each with those statistics; a
team's season games all fall in that year and its season `games_played`
counts exactly those games; and the season team listing contains exactly
the teams with a non-empty season history — empty histories are omitted,
never shown zeroed. -/
theorem C9_season_scope (db : DB) (s : String) (y : Nat)
    (hy : strToNat s = some y)
    (hnodup : (db.games.map (fun g => g.id)).Nodup) :
    (∀ player : Player, compute_player_season_stats db player (some s)
        = specSeasonStats db y player.id)
    ∧ (∀ e, e ∈ get_leaderboard db (some s) ↔
        ∃ p ∈ db.players, (specSeasonStats db y p.id).games_played ≠ 0
          ∧ e = mkEntry p (specSeasonStats db y p.id))
    ∧ (∀ t : Team, ∀ gn ∈ get_team_games db t (some s), gn.1.played_year = y)
    ∧ (∀ t : Team, (compute_team_season_stats db t (some s)).games_played
        = (get_team_games db t (some s)).length)
    ∧ (∀ e, e ∈ list_teams_season db (some s) ↔
        ∃ t ∈ db.teams, (compute_team_season_stats db t (some s)).games_played ≠ 0
          ∧ e = mkTeamEntry t (compute_team_season_stats db t (some s))) :=
  ⟨fun player => compute_season_eq_spec db player s y hy hnodup,
   fun e => leaderboard_mem_season db s y hy hnodup e,
   fun t => get_team_games_year db t s y hy,
   fun t => compute_team_len db t (some s),
   fun e => list_teams_mem db (some s) e⟩

theorem C9_witness :
    strToNat "2025" = some 2025
    ∧ (exDB2.games.map (fun g => g.id)).Nodup
    ∧ (compute_team_season_stats exDB2 exTeam2 (some "2025")).games_played
        = (get_team_games exDB2 exTeam2 (some "2025")).length := by
  have h := C9_season_scope exDB2 "2025" 2025 (by decide) (by decide)
  exact ⟨by decide, by decide, h.2.2.2.1 exTeam2⟩
